import Mathlib

/-!
Shallow embedding of the reasoning and retrieval orchestration core of the
nsx-chatbot repository, together with proofs checking the natural-language
specification against the code.

Conventions used throughout:
* External services (completion, moderation, ranked search, FAQ ranking,
  multi-document QA, the token counter of the `tiktoken` library, the memory
  backend and the database) are modelled as oracle functions gathered in
  environment structures.  Every outbound service call the code performs is
  recorded in an explicit trace of `Call` values.
* Python strings are Lean `String`s; `str.strip()` is `String.trim`;
  `a in b` (substring test) is `strContains b a`; Python dictionaries whose
  insertion order matters are association lists with insert-or-replace
  assignment (`dictSet`).
* Fallible Python code is modelled with `Except`; an exception raised is an
  `Except.error` value.
* Bounded Python `for` loops become structurally recursive functions on a
  fuel argument equal to the number of remaining iterations.
-/

namespace NSXChatbot

/-- Containment of `needle` in `hay` checked at every suffix of `hay`. -/
def listContains (needle : List Char) : List Char → Bool
  | [] => needle.isEmpty
  | c :: rest => needle.isPrefixOf (c :: rest) || listContains needle rest

/-- Python `needle in hay` substring containment on strings. -/
def strContains (hay needle : String) : Bool :=
  listContains needle.toList hay.toList

/-- Python `s.startswith(p)`. -/
def pyStartsWith (s p : String) : Bool :=
  p.toList.isPrefixOf s.toList

/-- Python `s.strip()`: surrounding whitespace removed from both ends. -/
def pyStrip (s : String) : String :=
  String.mk (((s.toList.dropWhile Char.isWhitespace).reverse.dropWhile
    Char.isWhitespace).reverse)

/-- Python `s.lower()`. -/
def pyLower (s : String) : String :=
  String.mk (s.toList.map Char.toLower)

/-- Left-to-right non-overlapping split on a nonempty separator; the fuel
argument (instantiated with the length of the text) only makes the
recursion structural. -/
def pySplitAux (sep : List Char) : Nat → List Char → List Char → List (List Char)
  | _, [], acc => [acc.reverse]
  | 0, rest, acc => [acc.reverse ++ rest]
  | fuel + 1, c :: rest, acc =>
    if sep.isPrefixOf (c :: rest) then
      acc.reverse :: pySplitAux sep fuel (List.drop (sep.length - 1) rest) []
    else
      pySplitAux sep fuel rest (c :: acc)

/-- Python `s.split(sep)` for a nonempty separator. -/
def pySplit (s sep : String) : List String :=
  (pySplitAux sep.toList s.toList.length s.toList []).map String.mk

/-- Python `s.replace(old, new)` (and the single-field uses of
`str.format`, which substitute every occurrence of the placeholder). -/
def pyReplace (s old new : String) : String :=
  String.intercalate new (pySplit s old)

/-- Python dictionary assignment `d[k] = v` on an insertion-ordered
association list: replaces the value when the key is present, appends
otherwise. -/
def dictSet (d : List (String × String)) (k v : String) : List (String × String) :=
  if d.any (fun p => p.1 == k) then
    d.map (fun p => if p.1 == k then (k, v) else p)
  else
    d ++ [(k, v)]

/-- Replace the element at index `n` of a list using `f`; identity when the
index is out of range (Python list indices in the modelled code are always in
range by construction). -/
def modifyAt {α : Type} : List α → Nat → (α → α) → List α
  | [], _, _ => []
  | x :: xs, 0, f => f x :: xs
  | x :: xs, n + 1, f => x :: modifyAt xs n f

theorem modifyAt_length {α : Type} (l : List α) (n : Nat) (f : α → α) :
    (modifyAt l n f).length = l.length := by
  induction l generalizing n with
  | nil => rfl
  | cons x xs ih =>
    cases n with
    | zero => rfl
    | succ m => simpa [modifyAt] using ih m

theorem modifyAt_get_eq {α : Type} (l : List α) (n : Nat) (f : α → α) :
    (modifyAt l n f).get? n = (l.get? n).map f := by
  induction l generalizing n with
  | nil => cases n <;> rfl
  | cons x xs ih =>
    cases n with
    | zero => rfl
    | succ m => simpa [modifyAt] using ih m

theorem modifyAt_get_ne {α : Type} (l : List α) (n m : Nat) (f : α → α)
    (h : n ≠ m) : (modifyAt l n f).get? m = l.get? m := by
  induction l generalizing n m with
  | nil => cases n <;> rfl
  | cons x xs ih =>
    cases n with
    | zero =>
      cases m with
      | zero => exact absurd rfl h
      | succ k => rfl
    | succ j =>
      cases m with
      | zero => rfl
      | succ k =>
        simpa [modifyAt] using ih j k (by omega)

/-!
## Bounded Retry Executor — `src/app/utils/timeout_management.py`

`retry_request_with_timeout` loops `for attempts in range(settings.max_retries)`,
issues the request, and immediately returns the response on success.  A
`requests.exceptions.Timeout` is swallowed and the next iteration started,
except on the last iteration (`attempts == settings.max_retries - 1`) where it
is re-raised; every other exception is re-raised at once.  When
`max_retries = 0` the loop body never runs and the Python function falls
through, returning `None`.

The outcome of attempt number `k` (counted from 0) is an oracle
`outcomes : Nat → AttemptOutcome`.
-/

/-- What a single request attempt does: returns a response, raises a
`requests.exceptions.Timeout`, or raises some other exception. -/
inductive AttemptOutcome where
  | ok (response : String)
  | timeout
  | err (e : String)
deriving DecidableEq, Repr

/-- Result of the whole retry wrapper. -/
inductive RetryResult where
  /-- A response was returned (its HTTP status is not inspected here). -/
  | ok (response : String)
  /-- The timeout was re-raised after the last attempt. -/
  | timeoutRaised
  /-- A non-timeout exception was re-raised. -/
  | errRaised (e : String)
  /-- The `for` loop was exhausted without returning (Python returns `None`);
  only reachable when `max_retries = 0`. -/
  | fellThrough
deriving DecidableEq, Repr

/-- The retry loop from attempt index `k` with `fuel` loop iterations left;
also returns the list of attempt indices actually issued. -/
def retryGo (outcomes : Nat → AttemptOutcome) (maxRetries : Nat) :
    Nat → Nat → RetryResult × List Nat
  | 0, _ => (.fellThrough, [])
  | fuel + 1, k =>
    match outcomes k with
    | .ok r => (.ok r, [k])
    | .err e => (.errRaised e, [k])
    | .timeout =>
      if k == maxRetries - 1 then (.timeoutRaised, [k])
      else
        let rest := retryGo outcomes maxRetries fuel (k + 1)
        (rest.1, k :: rest.2)

/-- `retry_request_with_timeout`, abstracted over the per-attempt outcome
oracle; the second component is the trace of attempts issued. -/
def retry_request_with_timeout (outcomes : Nat → AttemptOutcome)
    (maxRetries : Nat) : RetryResult × List Nat :=
  retryGo outcomes maxRetries maxRetries 0

/-!
## Ranked Document Search Tools — `src/app/services/nsx_search.py`
-/

/-- The error kinds raised by the search tools
(`src/app/utils/exceptions.py`), plus the Python `AssertionError` for the
`assert num_docs > 0` guard. -/
inductive SearchErr where
  | nsxAuthentication (msg : String)
  | nsxSearch (msg : String)
  | senseSearch (msg : String)
  | assertion
deriving DecidableEq, Repr

/-- A successful transport-level HTTP response from the NSX search endpoint:
its status code, the first paragraph of each returned document (the code only
ever reads `doc['paragraphs'][0]`), and the `message` field of the JSON body
(read on the error paths). -/
structure NSXResponse where
  status : Nat
  docs : List String
  errMessage : String
deriving DecidableEq, Repr

/-- The prompt snippets every tool shares (loaded from
`app/prompts/base_prompt.py`; the literal texts live in prompt files outside
the embedded sources, so they stay abstract strings here). -/
structure Sentinels where
  answer_not_found : String
  unanswerable_search : String
deriving DecidableEq, Repr

/-- Concatenation `docs += f"{nsx_docs[doc_idx]['paragraphs'][0]}\n"` over
`doc_idx in range(min(num_docs, nsx_docs_len))`, followed by `.strip()`. -/
def concatDocs (docs : List String) (numDocs : Nat) : String :=
  pyStrip (String.join ((docs.take numDocs).map (fun d => d ++ "\n")))

namespace NSXSearchTool

/-- `NSXSearchTool.search`: `assert num_docs > 0`; the request is issued
through the retry wrapper (a timeout propagates before this function body
runs, so `resp` models a delivered response); `raise_for_status` raises
`requests.HTTPError` for status codes 400–599, mapped to
`NSXAuthenticationError` for 403 and `NSXSearchError` otherwise; with a
non-error status, a nonempty document list is concatenated and returned,
while an empty list yields `unanswerable_search` when `searches_left == 0`
and `answer_not_found` otherwise. -/
def search (sent : Sentinels) (resp : NSXResponse) (searchesLeft : Int)
    (numDocs : Nat := 1) : Except SearchErr String :=
  if numDocs = 0 then .error .assertion
  else if 400 ≤ resp.status ∧ resp.status < 600 then
    if resp.status == 403 then .error (.nsxAuthentication "Invalid API key.")
    else .error (.nsxSearch ("Error in NSX: " ++ resp.errMessage ++ "."))
  else
    if resp.docs.length ≠ 0 then .ok (concatDocs resp.docs numDocs)
    else if searchesLeft == 0 then .ok sent.unanswerable_search
    else .ok sent.answer_not_found

end NSXSearchTool

namespace NSXSenseSearchTool

/-- Outcome of the MultidocQA request made by `answer_from_docs`: a
successful body carrying `pred_answer`, or an error response (which raises
`SenseSearchError`). -/
inductive SenseOutcome where
  | ok (predAnswer : String)
  | httpError (detail : String)
deriving DecidableEq, Repr

/-- `NSXSenseSearchTool.answer_from_docs`: posts to the MultidocQA endpoint;
a non-ok response raises `SenseSearchError`; when the predicted answer
contains the marker `"irrespondível"` case-insensitively it is converted to
the sentinel contract, otherwise the predicted answer is returned. -/
def answer_from_docs (sent : Sentinels) (outcome : SenseOutcome)
    (searchesLeft : Int) : Except SearchErr String :=
  match outcome with
  | .httpError detail => .error (.senseSearch ("Error in MultidocQA: " ++ detail))
  | .ok predAnswer =>
    if strContains (pyLower predAnswer) "irrespondível" then
      if searchesLeft == 0 then .ok sent.unanswerable_search
      else .ok sent.answer_not_found
    else .ok predAnswer

/-- `NSXSenseSearchTool.search`: after the retry wrapper delivers a response,
`if not response.ok` (status ≥ 400) raises `NSXAuthenticationError` for 403
and `NSXSearchError` otherwise; an empty document list yields the sentinel
contract; otherwise the documents are forwarded to `answer_from_docs`. -/
def search (sent : Sentinels) (resp : NSXResponse)
    (senseOutcome : SenseOutcome) (searchesLeft : Int) :
    Except SearchErr String :=
  if 400 ≤ resp.status then
    if resp.status == 403 then .error (.nsxAuthentication "Invalid API key.")
    else .error (.nsxSearch ("Error in NSX: " ++ resp.errMessage ++ "."))
  else
    if resp.docs.length = 0 then
      if searchesLeft == 0 then .ok sent.unanswerable_search
      else .ok sent.answer_not_found
    else
      answer_from_docs sent senseOutcome searchesLeft

end NSXSenseSearchTool

/-!
## Session Memory Store — `src/app/services/memory_handler.py`

The JSON-file handler is embedded over an oracle file system.  Python
exceptions are `PyErr` values; the `@handle_memory_errors` decorator maps any
exception escaping the decorated body to `MemoryHandlerError(e)`.
The in-file memory is the nested dictionary
`user_id ↦ index ↦ field ↦ value`; since `clear_history` only deletes the
`"interactions"` field, the innermost level keeps fields as string pairs.
-/

/-- Python exception values relevant to the memory handler. -/
inductive PyErr where
  | ioError (msg : String)
  | keyError (k : String)
  | memoryHandlerError (e : PyErr)
deriving DecidableEq, Repr

/-- Recognises an exception produced by the `MemoryHandlerError` wrapper. -/
def PyErr.isMemoryHandlerError : PyErr → Bool
  | .memoryHandlerError _ => true
  | _ => false

/-- Innermost level of the stored JSON: the per-index history object
(fields such as `"interactions"` and `"summary"`). -/
abbrev IndexMem := List (String × String)

/-- Per-user level of the stored JSON: `index ↦ history object`. -/
abbrev UserMem := List (String × IndexMem)

/-- Whole stored JSON object: `user_id ↦ per-user object`. -/
abbrev Mem := List (String × UserMem)

/-- Insert-or-replace assignment on the per-user dictionary. -/
def userMemSet (d : UserMem) (k : String) (v : IndexMem) : UserMem :=
  if d.any (fun p => p.1 == k) then
    d.map (fun p => if p.1 == k then (k, v) else p)
  else
    d ++ [(k, v)]

/-- Insert-or-replace assignment on the top-level dictionary. -/
def memSet (d : Mem) (k : String) (v : UserMem) : Mem :=
  if d.any (fun p => p.1 == k) then
    d.map (fun p => if p.1 == k then (k, v) else p)
  else
    d ++ [(k, v)]

/-- Oracle for the primitive file operations of `JSONMemoryHandler`.
`readMem` is the result of opening and `json.load`-ing the file:
`Except.error` is a failure of the open itself, `.ok none` is a parse failure
(the inner `try` turns it into `{}`), `.ok (some m)` is a parsed object.
`writeMem` is the result of `json.dump`-ing a given object. -/
structure JsonFS where
  readMem : Except PyErr (Option Mem)
  writeMem : Mem → Except PyErr Unit

/-- The `handle_memory_errors` decorator: any exception from the body is
wrapped into `MemoryHandlerError`. -/
def handle_memory_errors {α : Type} (body : Except PyErr α) : Except PyErr α :=
  match body with
  | .ok a => .ok a
  | .error e => .error (.memoryHandlerError e)

namespace JSONMemoryHandler

/-- `JSONMemoryHandler._open` (decorated): opens and parses the memory file;
a parse failure yields `{}`, an open failure propagates wrapped. -/
def openMem (fs : JsonFS) : Except PyErr Mem :=
  handle_memory_errors (
    match fs.readMem with
    | .error e => .error e
    | .ok r => .ok (r.getD []))

/-- `JSONMemoryHandler._save` (decorated): serialises the object to the
file; a write failure propagates wrapped. -/
def saveMem (fs : JsonFS) (m : Mem) : Except PyErr Unit :=
  handle_memory_errors (fs.writeMem m)

/-- `JSONMemoryHandler.save_history` (decorated): reads the file, ensures
the user entry exists (`if not user_chat_history: memory[user_id] = {}` —
note that a falsy `{}` is also replaced by `{}`), assigns
`memory[user_id][index] = json.loads(history)` (here `history` is already the
parsed object) and saves. -/
def save_history (fs : JsonFS) (user chatbotId index : String)
    (history : IndexMem) : Except PyErr Unit :=
  handle_memory_errors (
    let userId := user ++ "_" ++ chatbotId
    match openMem fs with
    | .error e => .error e
    | .ok memory =>
      let userMem := ((memory.lookup userId).getD [])
      saveMem fs (memSet memory userId (userMemSet userMem index history)))

/-- `JSONMemoryHandler.retrieve_history` (decorated):
`self._open().get(user_id, {}).get(index, None)`. -/
def retrieve_history (fs : JsonFS) (user chatbotId index : String) :
    Except PyErr (Option IndexMem) :=
  handle_memory_errors (
    let userId := user ++ "_" ++ chatbotId
    match openMem fs with
    | .error e => .error e
    | .ok memory => .ok (((memory.lookup userId).getD []).lookup index))

/-- The body of the `try` block of `clear_history`:
`del memory[user_id][index]["interactions"]` (each missing key raises
`KeyError`) followed by `self._save(memory)`. -/
def clearAttempt (fs : JsonFS) (memory : Mem) (userId index : String) :
    Except PyErr Unit :=
  match memory.lookup userId with
  | none => .error (.keyError userId)
  | some userMem =>
    match userMem.lookup index with
    | none => .error (.keyError index)
    | some idxMem =>
      if (idxMem.lookup "interactions").isNone then
        .error (.keyError "interactions")
      else
        saveMem fs
          (memSet memory userId
            (userMemSet userMem index
              (idxMem.filter (fun p => p.1 ≠ "interactions"))))

/-- `JSONMemoryHandler.clear_history` — the only store operation WITHOUT the
`@handle_memory_errors` decorator: `self._open()` runs before the `try`
block (so its wrapped failure propagates), but the delete-and-save step is
inside `try: ... except Exception: pass`, so any failure there — including a
failed `_save` — is silently swallowed and the method returns normally. -/
def clear_history (fs : JsonFS) (user chatbotId index : String) :
    Except PyErr Unit :=
  let userId := user ++ "_" ++ chatbotId
  match openMem fs with
  | .error e => .error e
  | .ok memory =>
    match clearAttempt fs memory userId index with
    | .ok _ => .ok ()
    | .error _ => .ok ()

end JSONMemoryHandler

/-!
## Reasoning Loop Controller — `src/app/services/chat_handler.py`

`ChatHandler.get_response` and its helpers are embedded over an oracle
environment `Env`; every outbound service call is recorded as a `Call`.
-/

/-- One outbound call to a collaborator service. -/
inductive Call where
  | moderation (text : String)
  | completion (prompt : String)
  | nsxSearch (query : String)
  | nsxScore (query : String)
  | nsxSense (query : String)
  | memoryGet
  | memoryClear
  | memorySave
  | dbGetDomain
  | dbUpsert
deriving DecidableEq, Repr

/-- A call to the completion service or to one of the search services
(ranked search, FAQ ranking, multi-document QA). -/
def Call.isCompletionOrSearch : Call → Bool
  | .completion _ => true
  | .nsxSearch _ => true
  | .nsxScore _ => true
  | .nsxSense _ => true
  | _ => false

/-- `app/schemas/search.py` `SearchTool`; `__str__` returns the value. -/
inductive SearchTool where
  | FAQ
  | NSX
  | SENSE
deriving DecidableEq, Repr

/-- String value of a `SearchTool` member (its `__str__`). -/
def SearchTool.value : SearchTool → String
  | .FAQ => "FAQ"
  | .NSX => "NSX"
  | .SENSE => "SENSE"

/-- Oracle environment: responses of the external collaborators, keyed by the
request content actually sent. -/
structure Env where
  /-- Flagged bit of a successful moderation response for a given text. -/
  harmful : String → Bool
  /-- Raw `text` field of a successful completion response for a prompt
  (`get_reasoning` then applies `.strip()`). -/
  completion : String → String
  /-- `tiktoken` token count of a text. -/
  numTokens : String → Nat
  /-- First paragraph of each `response_reranker` document of a successful
  ranked-search response for a query. -/
  nsxDocs : String → List String
  /-- `pred_answer` of a successful MultidocQA response for a query. -/
  senseAnswer : String → String
  /-- Result of `get_top_faq_questions`: `none` models a ranking-service
  failure (re-raised, then caught by `get_faq_answer`); the returned
  questions are always keys of the FAQ, since the source enumerates the FAQ
  dictionary. -/
  faqTop : String → Option (List String)
  /-- Stored chat history for the addressed user, as the string the handler
  consumes. -/
  history : Option String
  /-- `db.get_index_information(index, "domain")`. -/
  indexDomain : Option String

/-- Static configuration: the relevant `settings` values, constructor flags
and loaded prompt templates of the handler (templates keep their Python
`{placeholder}` markers, applied with `String.replace`). -/
structure Config where
  maxNumReasoning : Nat
  maxTokensPrompt : Nat
  maxTokensChatHistory : Nat
  maxTokensFaqPrompt : Nat
  chatPromptT : String
  faqPromptT : String
  summaryPromptT : String
  forcedFinishT : String
  sent : Sentinels
  /-- `self.faq[index]`: `none` when the index has no FAQ file (a `KeyError`
  inside the `try` of `get_faq_answer`). -/
  faq : Option (List (String × String))
  availableModels : List String
  disableFaq : Bool
  disableMemory : Bool
  useNsxSense : Bool
  returnDebug : Bool
  devMode : Bool

/-- The response-matching tail of `ChatHandler.get_faq_answer`: the
completion response is matched first exactly against the FAQ keys and then
by substring containment against the ranked questions; on a match the
question is appended to the used list and its canned answer returned.
(`get_top_faq_questions` only returns keys of the FAQ — it enumerates the
dictionary — so the lookup on the fallback path cannot miss.) -/
def faqMatchResponse (faq : List (String × String)) (topQuestions : List String)
    (response : String) (used : List String) : String × List String :=
  match faq.lookup response with
  | some answer => (answer, used ++ [response])
  | none =>
    match topQuestions.find? (fun question => strContains response question) with
    | some question => (((faq.lookup question).getD ""), used ++ [question])
    | none => ("irrespondível", used)

/-- `ChatHandler.get_faq_answer`: ranks the FAQ questions, builds the
selection prompt from the candidates that are not in `used_faq` and fit the
FAQ token budget, asks the completion service, and matches its response
first exactly against the FAQ keys and then by substring containment against
the ranked questions; any ranking failure is absorbed into the
`"irrespondível"` sentinel.  Returns the answer, the updated `used_faq` list
and the calls made. -/
def get_faq_answer (env : Env) (cfg : Config) (query : String)
    (used : List String) : String × List String × List Call :=
  match cfg.faq with
  | none => ("irrespondível", used, [])
  | some faq =>
    match env.faqTop query with
    | none => ("irrespondível", used, [.nsxScore query])
    | some topQuestions =>
      let promptSize0 := env.numTokens (cfg.faqPromptT ++ query)
      let queriesAndSize := topQuestions.foldl
        (fun (acc : String × Nat) question =>
          let questionSize := env.numTokens question
          if (!(used.contains question))
              && (acc.2 + questionSize < cfg.maxTokensFaqPrompt) then
            (acc.1 ++ question ++ "\n", acc.2 + questionSize)
          else acc)
        ("", promptSize0)
      let prompt := pyReplace (pyReplace cfg.faqPromptT "\x7bqueries\x7d"
        queriesAndSize.1) "\x7bsearch_input\x7d" query
      let response := pyStrip (env.completion prompt)
      let m := faqMatchResponse faq topQuestions response used
      (m.1, m.2, [Call.nsxScore query, Call.completion prompt])

/-- `ChatHandler.get_nsx_answer`, success path (the HTTP-error and timeout
paths raise and are settled on the `nsx_search.py` embedding): a nonempty
document list is concatenated, an empty one yields the sentinel chosen by
`searches_left`. -/
def get_nsx_answer (env : Env) (cfg : Config) (query : String)
    (searchesLeft : Int) (numDocs : Nat := 1) : String :=
  let docs := env.nsxDocs query
  if docs.length > 0 then concatDocs docs numDocs
  else if searchesLeft == 0 then cfg.sent.unanswerable_search
  else cfg.sent.answer_not_found

/-- `ChatHandler.get_nsx_sense_answer`, success path, with
`answer_from_docs` inlined: empty retrieval yields the sentinel contract;
otherwise the MultidocQA answer is returned unless it contains
`"irrespondível"` case-insensitively, which again yields the sentinel
contract. -/
def get_nsx_sense_answer (env : Env) (cfg : Config) (query : String)
    (searchesLeft : Int) : String :=
  let docs := env.nsxDocs query
  if docs.length = 0 then
    if searchesLeft == 0 then cfg.sent.unanswerable_search
    else cfg.sent.answer_not_found
  else
    let answer := env.senseAnswer query
    if strContains answer.toLower "irrespondível" then
      if searchesLeft == 0 then cfg.sent.unanswerable_search
      else cfg.sent.answer_not_found
    else answer

/-- Result of one tool dispatch: observation text, source tool, updated
`used_faq` list, and the calls made. -/
structure Obs where
  text : String
  tool : SearchTool
  usedFaq : List String
  calls : List Call
deriving Repr

/-- `ChatHandler.get_observation`: FAQ first unless disabled; on the
`"irrespondível"` sentinel the control falls through to the sense tool or
the ranked-search tool according to `use_nsx_sense`. -/
def get_observation (env : Env) (cfg : Config) (query : String)
    (used : List String) (searchesLeft : Int) : Obs :=
  let faqStep :=
    if !cfg.disableFaq then get_faq_answer env cfg query used
    else ("irrespondível", used, [])
  if faqStep.1 == "irrespondível" then
    if cfg.useNsxSense then
      { text := get_nsx_sense_answer env cfg query searchesLeft
        tool := .SENSE
        usedFaq := faqStep.2.1
        calls := faqStep.2.2 ++ [Call.nsxSearch query] ++
          (if (env.nsxDocs query).length = 0 then [] else [Call.nsxSense query]) }
    else
      { text := get_nsx_answer env cfg query searchesLeft 1
        tool := .NSX
        usedFaq := faqStep.2.1
        calls := faqStep.2.2 ++ [Call.nsxSearch query] }
  else
    { text := faqStep.1, tool := .FAQ, usedFaq := faqStep.2.1, calls := faqStep.2.2 }

/-- Python `s.split(sep)` destructured into exactly two pieces; `none` when
the separator does not occur exactly once (the `try` fails). -/
def split2 (s sep : String) : Option (String × String) :=
  match pySplit s sep with
  | [a, b] => some (a, b)
  | _ => none

/-- Python `s.split("\n")[0]`. -/
def firstLine (s : String) : String :=
  (pySplit s "\n").headD ""

/-- Parsed thought, action type and action text of one iteration, with the
completion calls issued to obtain them. -/
structure Parsed where
  thought : String
  actionType : String
  actionInput : String
  calls : List Call
deriving Repr

/-- The thought/action/action-text parsing of iteration `i` of
`get_response`: one completion call stopped at the iteration delimiters,
then one follow-up completion call for each of the two sections the first
response lacked; the three pieces are stripped at the end. -/
def parseIteration (env : Env) (i : Nat) (prompt : String) : Parsed :=
  let reasoningPrompt := prompt ++ s!"Pensamento {i}:"
  let reasoning := pyStrip (env.completion reasoningPrompt)
  let step1 :=
    match split2 reasoning s!"\nAção {i}:" with
    | some (t, a) => (t, a, [Call.completion reasoningPrompt])
    | none =>
      let t := firstLine reasoning
      let p2 := reasoningPrompt ++ s!"Pensamento {i}: " ++ t ++ s!"\nAção {i}:"
      (t, pyStrip (env.completion p2),
        [Call.completion reasoningPrompt, Call.completion p2])
  let thought := step1.1
  let action := step1.2.1
  let step2 :=
    match split2 action s!"\nTexto da ação {i}:" with
    | some (aty, ain) => (aty, ain, ([] : List Call))
    | none =>
      let aty := firstLine action
      let p3 := reasoningPrompt ++ s!"Pensamento {i}: " ++ thought ++
        s!"\nAção {i}:" ++ aty ++ s!"\nTexto da Ação {i}:"
      (aty, pyStrip (env.completion p3), [Call.completion p3])
  { thought := pyStrip thought
    actionType := pyStrip step2.1
    actionInput := pyStrip step2.2.1
    calls := step1.2.2 ++ step2.2.2 }

/-- One record of the reasoning trace (verification-side mirror of the debug
string). -/
structure IterRec where
  i : Nat
  thought : String
  actionType : String
  actionInput : String
  /-- `none` on the finishing iteration (no observation is requested). -/
  observation : Option String
  /-- The `searches_left` value passed to the tools; `none` on the finishing
  iteration. -/
  searchesLeft : Option Int
  tool : Option SearchTool
deriving Repr

/-- Mutable state of the reasoning loop. -/
structure LoopState where
  prompt : String
  usedFaq : List String
  calls : List Call
  trace : List IterRec
  debug : String
deriving Repr

/-- How the iteration loop ended. -/
inductive LoopExit where
  /-- The action type began with `"Finalizar"`; the action text is the
  answer. -/
  | finish (answer : String)
  /-- The token budget check tripped. -/
  | budget
  /-- All iterations were used. -/
  | exhausted
deriving DecidableEq, Repr

/-- The `iteration_string` appended to the prompt after a search
iteration. -/
def iterBlock (pr : Parsed) (i : Nat) (obsText : String) : String :=
  s!"Pensamento {i}: " ++ pr.thought ++ s!"\nAção {i}: " ++
    pr.actionType ++ s!"\nTexto da Ação {i}: " ++ pr.actionInput ++
    s!"\nObservação {i}: " ++ obsText ++ "\n"

/-- Body of one iteration of the `for i in range(1, max_num_reasoning + 1)`
loop of `get_response`: parse, then either finish, or dispatch the
observation with `searches_left = max_num_reasoning - i - 1` and apply the
strict token-budget check `total_tokens > settings.max_tokens_prompt` before
appending the iteration block to the prompt.  `some exit` stops the loop. -/
def loopStep (env : Env) (cfg : Config) (i : Nat) (st : LoopState) :
    LoopState × Option LoopExit :=
  let pr := parseIteration env i st.prompt
  let debugThought := s!"Pensamento {i}: " ++ pr.thought ++ s!"\nAção {i}: " ++
    pr.actionType ++ s!"\nTexto da Ação {i}: " ++ pr.actionInput ++ "\n"
  if pyStartsWith pr.actionType "Finalizar" then
    ({ st with
        calls := st.calls ++ pr.calls
        trace := st.trace ++
          [⟨i, pr.thought, pr.actionType, pr.actionInput, none, none, none⟩]
        debug := st.debug ++ debugThought },
      some (.finish pr.actionInput))
  else
    let searchesLeft : Int := (cfg.maxNumReasoning : Int) - (i : Int) - 1
    let ob := get_observation env cfg pr.actionInput st.usedFaq searchesLeft
    let debugObs := s!"Observação {i} (" ++ ob.tool.value ++ "): " ++ ob.text ++ "\n"
    let iterString := iterBlock pr i ob.text
    let st1 : LoopState :=
      { prompt := st.prompt
        usedFaq := ob.usedFaq
        calls := st.calls ++ pr.calls ++ ob.calls
        trace := st.trace ++ [⟨i, pr.thought, pr.actionType, pr.actionInput,
          some ob.text, some searchesLeft, some ob.tool⟩]
        debug := st.debug ++ debugThought ++ debugObs }
    if env.numTokens (st.prompt ++ iterString) > cfg.maxTokensPrompt then
      (st1, some .budget)
    else
      ({ st1 with prompt := st.prompt ++ iterString }, none)

/-- The iteration loop, with `fuel` iterations left and `i` the current
(1-based) iteration number. -/
def loopGo (env : Env) (cfg : Config) :
    Nat → Nat → LoopState → LoopState × LoopExit
  | 0, _, st => (st, .exhausted)
  | fuel + 1, i, st =>
    match loopStep env cfg i st with
    | (st1, some e) => (st1, e)
    | (st1, none) => loopGo env cfg fuel (i + 1) st1

/-- `ChatHandler.get_chat_history`: retrieves the stored history; when its
token count exceeds `settings.max_tokens_chat_history` it is summarised
(one completion call) and the store is cleared and rewritten, but the
original history string is still returned for the current turn. -/
def get_chat_history (env : Env) (cfg : Config) : String × List Call :=
  match env.history with
  | none => ("", [Call.memoryGet])
  | some h =>
    if env.numTokens h > cfg.maxTokensChatHistory then
      let summaryPrompt := pyReplace cfg.summaryPromptT "\x7bchat_history\x7d" h
      (h, [Call.memoryGet, Call.completion summaryPrompt, Call.memoryClear,
        Call.memorySave])
    else (h, [Call.memoryGet])

/-- `ChatHandler.dev_mode_action` (the handler-state mutations of the model
switch and the sense toggle are not tracked; only the returned text is).
The function can fall through and return Python `None`. -/
def dev_mode_action (cfg : Config) (message : String) : Option String :=
  if strContains message "#model" then
    some ("Digite o nome de um dos modelos disponíveis.\nModelos disponíves:\n"
      ++ String.intercalate ", " cfg.availableModels)
  else
    let model := pyStrip (String.mk (message.toList.drop 1))
    if cfg.availableModels.contains model then
      some ("A partir de agora utilizarei o " ++ model ++
        " para formular o meu raciocínio e respostas!")
    else if strContains message "#nsx_sense" then
      some ("NSX Sense: " ++ (if !cfg.useNsxSense then "enabled" else "disabled"))
    else none

/-- The fixed refusal text returned when moderation flags a message. -/
def refusalText : String := "Mensagem ignorada por conter conteúdo ofensivo."

/-- The fixed pre-flight "message too long" text. -/
def tooLongText : String :=
  "Sua mensagem é muito longa para que eu consiga processá-la adequadamente. Por favor, escreva-a de modo mais conciso."

/-- The prompt assembled before the pre-flight token guard: formatted chat
prompt (domain with its fallback), chat history and the user message. -/
def initialPrompt (env : Env) (cfg : Config) (userMessage : String) : String :=
  let chatHistory := if !cfg.disableMemory then (get_chat_history env cfg).1 else ""
  let indexDomain :=
    match env.indexDomain with
    | none => "documentos em minha base de dados"
    | some s => if s == "" then "documentos em minha base de dados" else s
  let fullChatPrompt := pyReplace cfg.chatPromptT "\x7bdomain\x7d" indexDomain
  fullChatPrompt ++ "\n" ++ chatHistory ++ "\nMensagem: " ++ userMessage ++ "\n"

/-- Result of a turn: the returned text (`none` models Python `None` from a
fallen-through dev-mode action), the ordered trace of service calls, the
reasoning trace, and how the loop exited. -/
structure TurnResult where
  text : Option String
  calls : List Call
  trace : List IterRec
  exit : Option LoopExit
  /-- Marks the pre-flight "message too long" early return (verification-side
  instrumentation distinguishing it from an identical answer text). -/
  tooLong : Bool := false
deriving Repr

/-- `ChatHandler.get_response`: dev-mode shortcut; inbound moderation with
the fixed refusal; history fetch; pre-flight token guard; the reasoning
loop; forced finish when the loop did not end on a Finish action; outbound
moderation with the same refusal; memory save, logging and persistence; and
the debug-string variant of the returned text when requested. -/
def get_response (env : Env) (cfg : Config) (userMessage : String) : TurnResult :=
  if pyStartsWith userMessage "#" && cfg.devMode then
    { text := dev_mode_action cfg userMessage, calls := [], trace := [], exit := none }
  else if env.harmful userMessage then
    { text := some refusalText, calls := [Call.moderation userMessage],
      trace := [], exit := none }
  else
    let memCalls := if !cfg.disableMemory then (get_chat_history env cfg).2 else []
    let prompt := initialPrompt env cfg userMessage
    let baseCalls := [Call.moderation userMessage] ++ memCalls ++ [Call.dbGetDomain]
    if env.numTokens prompt > cfg.maxTokensPrompt then
      { text := some tooLongText, calls := baseCalls, trace := [], exit := none,
        tooLong := true }
    else
      let run := loopGo env cfg cfg.maxNumReasoning 1 ⟨prompt, [], [], [], ""⟩
      let st := run.1
      let afterLoop :=
        match run.2 with
        | .finish a => (a, ([] : List Call), st.debug)
        | _ =>
          let ffPrompt := pyReplace cfg.forcedFinishT "\x7bprompt\x7d" st.prompt
          let a := pyStrip (env.completion ffPrompt)
          (a, [Call.completion ffPrompt], st.debug ++ "Finalizar Forçado: " ++ a ++ "\n")
      let answer := afterLoop.1
      let calls1 := baseCalls ++ st.calls ++ afterLoop.2.1 ++ [Call.moderation answer]
      if env.harmful answer then
        { text := some refusalText, calls := calls1, trace := st.trace,
          exit := some run.2 }
      else
        let calls2 := calls1 ++
          (if !cfg.disableMemory then [Call.memorySave] else []) ++ [Call.dbUpsert]
        { text := some (if !cfg.returnDebug then answer
            else afterLoop.2.2 ++ "\nAnswer: " ++ answer)
          calls := calls2
          trace := st.trace
          exit := some run.2 }

/-!
## Parallel Multi-Query Variant —
`src/app/services/chat_handler_function_call.py`

`search_information_parallel` flattens the information items (each item is a
dictionary whose values, in iteration order, are the differently-worded
descriptions), submits every flattened task to the module-level
`get_observation` worker through a thread pool, and reassembles the
answers.  The worker calls `self.get_observation(value, index, used_faq,
latency_dict, api_key, 1, settings.num_docs_search, bm25_only)` — eight
positional arguments for the six-parameter `ChatHandler.get_observation`
of this source tree (`chat_handler.py:438-446`), so in Python the call
raises `TypeError` before any dispatch happens; the embedding models the
arity check explicitly.  `ThreadPoolExecutor.map` yields results (and
re-raises worker exceptions) in the order of its input list, so the fan-in
is a sequential fold here.  The per-query dispatch that a matching arity
would perform is abstracted as `resolver`, and
`model_utils.get_num_tokens(json.dumps(result))` as the oracle `measure`.
-/

namespace ChatHandlerFunctionCall

/-- One flattened task: `{"i": i, "value": name, ...}`. -/
structure Task where
  i : Nat
  value : String
deriving DecidableEq, Repr

/-- One resolved answer: `{"index": i, "name": value, "result": result}`. -/
structure TaskAnswer where
  i : Nat
  name : String
  result : String
deriving DecidableEq, Repr

/-- The flattening loop `for i, info in enumerate(info_list): for k in info:
name = info[k]`, with the running `enumerate` counter explicit. -/
def flattenFrom (i : Nat) : List (List String) → List Task
  | [] => []
  | info :: rest => info.map (fun name => Task.mk i name) ++ flattenFrom (i + 1) rest

/-- The flattened task list of `search_information_parallel`. -/
def flatten (infoList : List (List String)) : List Task :=
  flattenFrom 0 infoList

/-- The Python exception a mismatched call raises. -/
inductive CallErr where
  | typeError
deriving DecidableEq, Repr

/-- Positional parameters of `ChatHandler.get_observation` after `self`
(`chat_handler.py:438-446`): query, index, used_faq, latency_dict, api_key,
searches_left. -/
def get_observation_param_count : Nat := 6

/-- Positional arguments the module-level worker passes after `self`
(`chat_handler_function_call.py:19-28`): value, index, used_faq,
latency_dict, api_key, the literal `1` in the `searches_left` position,
`settings.num_docs_search`, and `bm25_only`. -/
def worker_argument_count : Nat := 8

/-- The module-level worker `get_observation(x)`: Python checks the call
arity of `self.get_observation` before running its body and raises
`TypeError` on a mismatch; only with matching counts would the dispatch run
(abstracted as `resolver`, applied to `x["value"]` with the literal `1` in
the `searches_left` position) and the answer record
`{"index": i, "name": value, "result": result}` be built. -/
def worker (resolver : String → Int → String) (t : Task) :
    Except CallErr (TaskAnswer × (String × Int)) :=
  if worker_argument_count = get_observation_param_count then
    .ok ({ i := t.i, name := t.value, result := resolver t.value 1 }, (t.value, 1))
  else
    .error .typeError

/-- The fan-in iteration over `executor.map`\'s result: worker results come
back in task order, and the first worker exception is re-raised at its
position in that order. -/
def collectResults (resolver : String → Int → String) :
    List Task → Except CallErr (List (TaskAnswer × (String × Int)))
  | [] => .ok []
  | t :: rest =>
    match worker resolver t with
    | .error e => .error e
    | .ok r =>
      match collectResults resolver rest with
      | .error e => .error e
      | .ok rs => .ok (r :: rs)

/-- `result[i][name] = x` on the pre-sized array of dictionaries. -/
def setCell (result : List (List (String × String))) (i : Nat) (name x : String) :
    List (List (String × String)) :=
  modifyAt result i (fun d => dictSet d name x)

/-- The fan-in loop: for each answer in arrival order, write
`result[i][name] = answer["result"]`, recount the serialised tokens, and
when `remaining_tokens < num_tokens` overwrite that same cell with the empty
string (the key stays present). -/
def assemble (measure : List (List (String × String)) → Nat) (remaining : Int) :
    List (List (String × String)) → List TaskAnswer →
    List (List (String × String))
  | result, [] => result
  | result, a :: rest =>
    let r1 := setCell result a.i a.name a.result
    let numTokens := measure r1
    let r2 := if remaining < (numTokens : Int) then setCell r1 a.i a.name "" else r1
    assemble measure remaining r2 rest

/-- `ChatHandlerFunctionCall.search_information_parallel`: flatten, submit
every task to the worker, iterate the results (re-raising the first worker
exception), and assemble into `[{} for _ in info_list]`; on success it
also returns the list of `(query, searches_left)` dispatches issued.  With
this source tree\'s six-parameter `get_observation`, every worker call
raises `TypeError`, so any nonempty task list makes this raise. -/
def search_information_parallel (resolver : String → Int → String)
    (measure : List (List (String × String)) → Nat) (remaining : Int)
    (infoList : List (List String)) :
    Except CallErr (List (List (String × String)) × List (String × Int)) :=
  let flat := flatten infoList
  match collectResults resolver flat with
  | .error e => .error e
  | .ok resolved =>
    let answers := resolved.map Prod.fst
    let dispatches := resolved.map Prod.snd
    .ok (assemble measure remaining (infoList.map (fun _ => [])) answers,
      dispatches)

end ChatHandlerFunctionCall

/-!
## Claim C5 — bounded retry executor
-/

/-- If every attempt from `k` up to `maxRetries - 1` times out, the loop
walks through all of them and re-raises the timeout on the last one. -/
theorem retryGo_all_timeout (outcomes : Nat → AttemptOutcome) (n : Nat) :
    ∀ fuel k, k + fuel = n → 1 ≤ fuel →
      (∀ j, k ≤ j → j < n → outcomes j = .timeout) →
      retryGo outcomes n fuel k = (.timeoutRaised, List.range' k fuel) := by
  intro fuel
  induction fuel with
  | zero => intro k _ h1 _; omega
  | succ f ih =>
    intro k hkn _ hto
    have hk : outcomes k = .timeout := hto k (le_refl k) (by omega)
    by_cases hlast : k = n - 1
    · have hf : f = 0 := by omega
      subst hf
      have hk' : (k == n - 1) = true := by simp [hlast]
      simp [retryGo, hk, hk', List.range']
    · have hne : (k == n - 1) = false := by
        simp only [beq_eq_false_iff_ne]; exact hlast
      have hrest : retryGo outcomes n f (k + 1) =
          (.timeoutRaised, List.range' (k + 1) f) := by
        refine ih (k + 1) (by omega) (by omega) ?_
        intro j hj1 hj2
        exact hto j (by omega) hj2
      simp [retryGo, hk, hne, hrest, List.range']

/-- If attempts `k, …, j - 1` time out and attempt `j < maxRetries` does not,
the loop stops at attempt `j` with its outcome, having issued exactly the
attempts `k, …, j`. -/
theorem retryGo_first_non_timeout (outcomes : Nat → AttemptOutcome) (n : Nat) :
    ∀ fuel k j, k + fuel = n → k ≤ j → j < n →
      (∀ m, k ≤ m → m < j → outcomes m = .timeout) →
      ((∀ e, outcomes j = .err e →
        retryGo outcomes n fuel k = (.errRaised e, List.range' k (j - k + 1))) ∧
       (∀ r, outcomes j = .ok r →
        retryGo outcomes n fuel k = (.ok r, List.range' k (j - k + 1)))) := by
  intro fuel
  induction fuel with
  | zero => intro k j h1 h2 h3 _; omega
  | succ f ih =>
    intro k j hkn hkj hjn hto
    by_cases hjk : j = k
    · subst hjk
      constructor
      · intro e he; simp [retryGo, he, List.range']
      · intro r hr; simp [retryGo, hr, List.range']
    · have hk : outcomes k = .timeout := hto k (le_refl k) (by omega)
      have hne : (k == n - 1) = false := by
        simp only [beq_eq_false_iff_ne]; omega
      have hrec := ih (k + 1) j (by omega) (by omega) hjn
        (fun m hm1 hm2 => hto m (by omega) hm2)
      have harg : j - k + 1 = (j - (k + 1) + 1) + 1 := by omega
      have hr' : List.range' k (j - k + 1) =
          k :: List.range' (k + 1) (j - (k + 1) + 1) := by
        rw [harg]; rfl
      constructor
      · intro e he
        have hrest := hrec.1 e he
        simp [retryGo, hk, hne, hrest, hr']
      · intro r hr
        have hrest := hrec.2 r hr
        simp [retryGo, hk, hne, hrest, hr']

/-- The loop never issues more attempts than it has fuel for. -/
theorem retryGo_length_le (outcomes : Nat → AttemptOutcome) (n : Nat) :
    ∀ fuel k, (retryGo outcomes n fuel k).2.length ≤ fuel := by
  intro fuel
  induction fuel with
  | zero => intro k; simp [retryGo]
  | succ f ih =>
    intro k
    cases h : outcomes k with
    | ok r => simp [retryGo, h]
    | err e => simp [retryGo, h]
    | timeout =>
      by_cases hk : (k == n - 1) = true
      · simp [retryGo, h, hk]
      · simp only [Bool.not_eq_true] at hk
        simpa [retryGo, h, hk] using ih (k + 1)

/-- If the wrapper re-raised the timeout, every attempt it examined (from
`k` to the last one) timed out. -/
theorem retryGo_timeoutRaised (outcomes : Nat → AttemptOutcome) (n : Nat) :
    ∀ fuel k, (retryGo outcomes n fuel k).1 = .timeoutRaised →
      ∀ j, k ≤ j → j < n → outcomes j = .timeout := by
  intro fuel
  induction fuel with
  | zero => intro k h; simp [retryGo] at h
  | succ f ih =>
    intro k h j hj1 hj2
    cases hk : outcomes k with
    | ok r => simp [retryGo, hk] at h
    | err e => simp [retryGo, hk] at h
    | timeout =>
      by_cases hlast : (k == n - 1) = true
      · simp only [beq_iff_eq] at hlast
        -- the raise happened at `k = n - 1`; only `j = n - 1` is in range
        -- beyond the timed-out attempts already known
        by_cases hjk : j = k
        · rw [hjk]; exact hk
        · -- `k = n - 1` and `k ≤ j < n` force `j = k`
          omega
      · simp only [Bool.not_eq_true] at hlast
        simp only [retryGo, hk, hlast] at h
        by_cases hjk : j = k
        · rw [hjk]; exact hk
        · exact ih (k + 1) h j (by omega) hj2

/--
C5: `retry_request_with_timeout` re-issues a request only after a timeout,
makes at most `settings.max_retries` total attempts, re-raises the timeout
exactly when every attempt (including the final one) timed out, and
propagates any non-timeout exception immediately with no further attempts.
Concretely: (1) when all `n` attempts time out the result is the re-raised
timeout after attempts `0, …, n - 1`; (2) when attempts before `j` time out
and attempt `j` raises a non-timeout exception, that exception is
re-raised at once after attempts `0, …, j`; (3) symmetrically a successful
attempt `j` returns its response at once; (4) the number of attempts never
exceeds `n`; (5) a re-raised timeout implies every one of the `n` attempts
timed out.
-/
theorem C5_retry_semantics (outcomes : Nat → AttemptOutcome) (n : Nat) :
    (1 ≤ n → (∀ k, k < n → outcomes k = .timeout) →
      retry_request_with_timeout outcomes n = (.timeoutRaised, List.range n)) ∧
    (∀ j e, j < n → (∀ k, k < j → outcomes k = .timeout) → outcomes j = .err e →
      retry_request_with_timeout outcomes n = (.errRaised e, List.range (j + 1))) ∧
    (∀ j r, j < n → (∀ k, k < j → outcomes k = .timeout) → outcomes j = .ok r →
      retry_request_with_timeout outcomes n = (.ok r, List.range (j + 1))) ∧
    ((retry_request_with_timeout outcomes n).2.length ≤ n) ∧
    ((retry_request_with_timeout outcomes n).1 = .timeoutRaised →
      ∀ k, k < n → outcomes k = .timeout) := by
  refine ⟨?_, ?_, ?_, ?_, ?_⟩
  · intro hn hall
    have := retryGo_all_timeout outcomes n n 0 (by omega) hn
      (fun j _ hj => hall j hj)
    simpa [retry_request_with_timeout, List.range_eq_range'] using this
  · intro j e hj hbefore he
    have := (retryGo_first_non_timeout outcomes n n 0 j (by omega) (by omega) hj
      (fun m _ hm => hbefore m hm)).1 e he
    simpa [retry_request_with_timeout, List.range_eq_range'] using this
  · intro j r hj hbefore hr
    have := (retryGo_first_non_timeout outcomes n n 0 j (by omega) (by omega) hj
      (fun m _ hm => hbefore m hm)).2 r hr
    simpa [retry_request_with_timeout, List.range_eq_range'] using this
  · exact retryGo_length_le outcomes n n 0
  · intro h k hk
    exact retryGo_timeoutRaised outcomes n n 0 h k (by omega) hk

/-- Concrete witness for C5: three attempts, the first times out and the
second raises a connection error — the error propagates immediately after
exactly two attempts. -/
theorem C5_retry_semantics_witness :
    retry_request_with_timeout
      (fun k => if k = 0 then .timeout else .err "connection refused") 3 =
      (.errRaised "connection refused", List.range 2) :=
  (C5_retry_semantics (fun k => if k = 0 then .timeout else .err "connection refused") 3).2.1
    1 "connection refused" (by omega)
    (by intro k hk; interval_cases k; simp)
    (by simp)

/-!
## Claims C2 and C6 — knowledge-lookup sentinel and error contracts
-/

/--
C2: when the ranked-search service answers successfully with zero usable
results, `NSXSearchTool.search` returns the "nothing found yet, but more
searching is possible" sentinel (`answer_not_found`) when
`searches_left > 0` and the "search budget exhausted" sentinel
(`unanswerable_search`) when `searches_left == 0`; for a fixed empty
response the choice between the two sentinels is purely a function of
`searches_left`.
-/
theorem C2_empty_search_sentinels (sent : Sentinels) (resp : NSXResponse)
    (searchesLeft : Int) (numDocs : Nat) (env : Env) (cfg : Config)
    (query : String)
    (hok : resp.status < 400) (hempty : resp.docs = []) (hnd : numDocs ≠ 0)
    (hdocs : env.nsxDocs query = []) :
    NSXSearchTool.search sent resp searchesLeft numDocs =
      .ok (if searchesLeft == 0 then sent.unanswerable_search
           else sent.answer_not_found) ∧
    (searchesLeft > 0 →
      NSXSearchTool.search sent resp searchesLeft numDocs =
        .ok sent.answer_not_found) ∧
    (searchesLeft = 0 →
      NSXSearchTool.search sent resp searchesLeft numDocs =
        .ok sent.unanswerable_search) ∧
    (get_nsx_answer env cfg query searchesLeft numDocs =
      (if searchesLeft == 0 then cfg.sent.unanswerable_search
       else cfg.sent.answer_not_found)) := by
  have hmain : NSXSearchTool.search sent resp searchesLeft numDocs =
      .ok (if searchesLeft == 0 then sent.unanswerable_search
           else sent.answer_not_found) := by
    unfold NSXSearchTool.search
    rw [if_neg hnd, if_neg (by omega), hempty]
    by_cases hz : (searchesLeft == 0) = true
    · rw [hz]; simp [hz]
    · simp only [Bool.not_eq_true] at hz
      rw [hz]; simp [hz]
  refine ⟨hmain, ?_, ?_, ?_⟩
  · intro hpos
    rw [hmain]
    have : (searchesLeft == 0) = false := by
      simp only [beq_eq_false_iff_ne]; omega
    rw [this]
    simp
  · intro hz
    rw [hmain, hz]
    simp
  · unfold get_nsx_answer
    rw [hdocs]
    simp

/-- Environment for the C2 witness: the ranked search returns no
documents. -/
def envC2 : Env :=
  { harmful := fun _ => false
    completion := fun _ => ""
    numTokens := fun _ => 0
    nsxDocs := fun _ => []
    senseAnswer := fun _ => ""
    faqTop := fun _ => none
    history := none
    indexDomain := none }

/-- Configuration for the C2 witness. -/
def cfgC2 : Config :=
  { maxNumReasoning := 6
    maxTokensPrompt := 4000
    maxTokensChatHistory := 800
    maxTokensFaqPrompt := 3700
    chatPromptT := ""
    faqPromptT := ""
    summaryPromptT := ""
    forcedFinishT := ""
    sent := ⟨"NAO_ENCONTRADO", "ESGOTADO"⟩
    faq := none
    availableModels := []
    disableFaq := true
    disableMemory := true
    useNsxSense := false
    returnDebug := false
    devMode := false }

/-- Concrete witness for C2: a 200 response with zero documents and
`searches_left = 2` yields the "try again" sentinel, the same response with
`searches_left = 0` yields the "exhausted" sentinel, and the
`get_nsx_answer` copy of the chat handler behaves identically. -/
theorem C2_empty_search_sentinels_witness :
    NSXSearchTool.search ⟨"NAO_ENCONTRADO", "ESGOTADO"⟩ ⟨200, [], ""⟩ 2 1 =
      .ok "NAO_ENCONTRADO" ∧
    NSXSearchTool.search ⟨"NAO_ENCONTRADO", "ESGOTADO"⟩ ⟨200, [], ""⟩ 0 1 =
      .ok "ESGOTADO" ∧
    get_nsx_answer envC2 cfgC2 "consulta" 0 1 = "ESGOTADO" := by
  refine ⟨?_, ?_, ?_⟩
  · exact (C2_empty_search_sentinels ⟨"NAO_ENCONTRADO", "ESGOTADO"⟩
      ⟨200, [], ""⟩ 2 1 envC2 cfgC2 "consulta" (by decide) rfl (by decide)
      (by decide)).2.1 (by decide)
  · exact (C2_empty_search_sentinels ⟨"NAO_ENCONTRADO", "ESGOTADO"⟩
      ⟨200, [], ""⟩ 0 1 envC2 cfgC2 "consulta" (by decide) rfl (by decide)
      (by decide)).2.2.1 rfl
  · exact ((C2_empty_search_sentinels ⟨"NAO_ENCONTRADO", "ESGOTADO"⟩
      ⟨200, [], ""⟩ 0 1 envC2 cfgC2 "consulta" (by decide) rfl (by decide)
      (by decide)).2.2.2).trans (by decide)

/--
C6: for both ranked-search tools, an HTTP error response with status 403
raises the authentication error kind (`NSXAuthenticationError`) and any
other HTTP error status raises the generic search error kind
(`NSXSearchError`); in neither case is the failure converted into a
sentinel "nothing found" observation — the result is an error, not an
`ok` observation.  (`NSXSearchTool` classifies through
`raise_for_status`, which raises for statuses 400–599;
`NSXSenseSearchTool` checks `not response.ok`, status ≥ 400.)
-/
theorem C6_http_error_kinds (sent : Sentinels) (resp : NSXResponse)
    (senseOutcome : NSXSenseSearchTool.SenseOutcome) (searchesLeft : Int)
    (numDocs : Nat) (h4 : 400 ≤ resp.status) (h6 : resp.status < 600)
    (hnd : numDocs ≠ 0) :
    (resp.status = 403 →
      NSXSearchTool.search sent resp searchesLeft numDocs =
        .error (.nsxAuthentication "Invalid API key.") ∧
      NSXSenseSearchTool.search sent resp senseOutcome searchesLeft =
        .error (.nsxAuthentication "Invalid API key.")) ∧
    (resp.status ≠ 403 →
      NSXSearchTool.search sent resp searchesLeft numDocs =
        .error (.nsxSearch ("Error in NSX: " ++ resp.errMessage ++ ".")) ∧
      NSXSenseSearchTool.search sent resp senseOutcome searchesLeft =
        .error (.nsxSearch ("Error in NSX: " ++ resp.errMessage ++ "."))) ∧
    (∀ s, NSXSearchTool.search sent resp searchesLeft numDocs ≠ .ok s) ∧
    (∀ s, NSXSenseSearchTool.search sent resp senseOutcome searchesLeft ≠ .ok s) := by
  have h1 : NSXSearchTool.search sent resp searchesLeft numDocs =
      (if resp.status == 403 then
        Except.error (SearchErr.nsxAuthentication "Invalid API key.")
      else
        Except.error (SearchErr.nsxSearch
          ("Error in NSX: " ++ resp.errMessage ++ "."))) := by
    unfold NSXSearchTool.search
    rw [if_neg hnd, if_pos ⟨h4, h6⟩]
  have h2 : NSXSenseSearchTool.search sent resp senseOutcome searchesLeft =
      (if resp.status == 403 then
        Except.error (SearchErr.nsxAuthentication "Invalid API key.")
      else
        Except.error (SearchErr.nsxSearch
          ("Error in NSX: " ++ resp.errMessage ++ "."))) := by
    unfold NSXSenseSearchTool.search
    rw [if_pos h4]
  refine ⟨?_, ?_, ?_, ?_⟩
  · intro h403
    have hb : (resp.status == 403) = true := by simp [h403]
    rw [h1, h2, hb]
    simp
  · intro h403
    have hb : (resp.status == 403) = false := by
      simp only [beq_eq_false_iff_ne]; exact h403
    rw [h1, h2, hb]
    simp
  · intro s
    rw [h1]
    by_cases hb : (resp.status == 403) = true
    · rw [hb]; simp
    · simp only [Bool.not_eq_true] at hb
      rw [hb]; simp
  · intro s
    rw [h2]
    by_cases hb : (resp.status == 403) = true
    · rw [hb]; simp
    · simp only [Bool.not_eq_true] at hb
      rw [hb]; simp

/-- Concrete witness for C6: a 403 raises the authentication error and a
500 raises the generic search error, on both tools. -/
theorem C6_http_error_kinds_witness :
    NSXSearchTool.search ⟨"NF", "UN"⟩ ⟨403, [], "forbidden"⟩ 2 1 =
      .error (.nsxAuthentication "Invalid API key.") ∧
    NSXSenseSearchTool.search ⟨"NF", "UN"⟩ ⟨403, [], "forbidden"⟩ (.ok "a") 2 =
      .error (.nsxAuthentication "Invalid API key.") ∧
    NSXSearchTool.search ⟨"NF", "UN"⟩ ⟨500, [], "boom"⟩ 2 1 =
      .error (.nsxSearch "Error in NSX: boom.") ∧
    NSXSenseSearchTool.search ⟨"NF", "UN"⟩ ⟨500, [], "boom"⟩ (.ok "a") 2 =
      .error (.nsxSearch "Error in NSX: boom.") := by
  have ha := (C6_http_error_kinds ⟨"NF", "UN"⟩ ⟨403, [], "forbidden"⟩ (.ok "a") 2 1
    (by decide) (by decide) (by decide)).1 rfl
  have hb := (C6_http_error_kinds ⟨"NF", "UN"⟩ ⟨500, [], "boom"⟩ (.ok "a") 2 1
    (by decide) (by decide) (by decide)).2.1 (by decide)
  exact ⟨ha.1, ha.2, hb.1, hb.2⟩

/-!
## Claim C7 — Session Memory Store failure wrapping
-/

/-- A file system whose stored object holds one interaction history and
whose write primitive always fails (for example, a full disk). -/
def fsWriteFails : JsonFS :=
  { readMem := .ok (some [("u_c", [("idx", [("interactions", "Usuário: oi")])])])
    writeMem := fun _ => .error (.ioError "disk full") }

/-- The object `clear_history` attempts to save on `fsWriteFails` after
deleting the `"interactions"` field. -/
def memAfterDelete : Mem := [("u_c", [("idx", [])])]

/--
C7 counterexample: on a store whose write primitive fails,
`JSONMemoryHandler.clear_history` returns successfully even though its
internal `_save` raised a wrapped `MemoryHandlerError` — the failure is
silently swallowed by the bare `except Exception: pass`, contradicting the
claim that every failing store operation raises the Memory error kind.
-/
theorem C7_clear_history_swallows_counterexample :
    JSONMemoryHandler.saveMem fsWriteFails memAfterDelete =
      .error (.memoryHandlerError (.ioError "disk full")) ∧
    JSONMemoryHandler.clear_history fsWriteFails "u" "c" "idx" = .ok () := by
  constructor
  · rfl
  · rfl

/--
C7 amended: every `@handle_memory_errors`-decorated store operation that
fails raises the single Memory error kind wrapping the underlying
exception (shown for `save_history` and `retrieve_history`), and
`JSONMemoryHandler.clear_history` — which lacks the decorator — can only
fail through its initial `_open` (whose wrapped error propagates); once the
open succeeds, `clear_history` returns successfully regardless of any
failure of the delete-and-save step, silently swallowing it.
-/
theorem C7_memory_error_wrapping (fs : JsonFS) (user chatbotId index : String)
    (history : IndexMem) :
    (∀ e, JSONMemoryHandler.save_history fs user chatbotId index history =
        .error e → e.isMemoryHandlerError = true) ∧
    (∀ e, JSONMemoryHandler.retrieve_history fs user chatbotId index =
        .error e → e.isMemoryHandlerError = true) ∧
    (∀ e, JSONMemoryHandler.clear_history fs user chatbotId index = .error e →
        (e.isMemoryHandlerError = true ∧ JSONMemoryHandler.openMem fs = .error e)) ∧
    (∀ m, JSONMemoryHandler.openMem fs = .ok m →
        JSONMemoryHandler.clear_history fs user chatbotId index = .ok ()) := by
  have hopen : ∀ e, JSONMemoryHandler.openMem fs = .error e →
      e.isMemoryHandlerError = true := by
    intro e he
    unfold JSONMemoryHandler.openMem handle_memory_errors at he
    split at he
    · simp at he
    · simp only [Except.error.injEq] at he
      rw [← he]
      rfl
  refine ⟨?_, ?_, ?_, ?_⟩
  · intro e he
    unfold JSONMemoryHandler.save_history handle_memory_errors at he
    split at he
    · simp at he
    · simp only [Except.error.injEq] at he
      rw [← he]
      rfl
  · intro e he
    unfold JSONMemoryHandler.retrieve_history handle_memory_errors at he
    split at he
    · simp at he
    · simp only [Except.error.injEq] at he
      rw [← he]
      rfl
  · intro e he
    unfold JSONMemoryHandler.clear_history at he
    simp only [] at he
    cases hb : JSONMemoryHandler.openMem fs with
    | error e0 =>
      rw [hb] at he
      simp only [Except.error.injEq] at he
      rw [he] at hb
      exact ⟨hopen e hb, by rw [he]⟩
    | ok m =>
      rw [hb] at he
      simp only [] at he
      split at he
      · simp at he
      · simp at he
  · intro m hm
    unfold JSONMemoryHandler.clear_history
    simp only []
    rw [hm]
    simp only []
    split
    · rfl
    · rfl

/-- Concrete witness for the amended C7: on a store whose read primitive
fails, `save_history` raises the wrapped Memory error kind, and on the
write-failing store (whose open succeeds) `clear_history` still returns
successfully. -/
theorem C7_memory_error_wrapping_witness :
    PyErr.isMemoryHandlerError
      (PyErr.memoryHandlerError (.memoryHandlerError (.ioError "corrupt"))) = true ∧
    JSONMemoryHandler.clear_history fsWriteFails "u" "c" "idx" = .ok () := by
  constructor
  · exact (C7_memory_error_wrapping
      ⟨.error (.ioError "corrupt"), fun _ => .ok ()⟩ "u" "c" "idx" []).1
      (.memoryHandlerError (.memoryHandlerError (.ioError "corrupt"))) rfl
  · exact (C7_memory_error_wrapping fsWriteFails "u" "c" "idx" []).2.2.2
      [("u_c", [("idx", [("interactions", "Usuário: oi")])])] rfl

/-!
## Claim C8 — FAQ used-question exclusion
-/

/-- The FAQ candidate questions accepted by the filter of
`get_faq_answer`: not already used, and fitting the running FAQ-prompt
token budget. -/
def faqAccepted (tokens : String → Nat) (maxTok : Nat) (used : List String) :
    List String → Nat → List String
  | [], _ => []
  | q :: rest, size =>
    let qs := tokens q
    if (!(used.contains q)) && (size + qs < maxTok) then
      q :: faqAccepted tokens maxTok used rest (size + qs)
    else
      faqAccepted tokens maxTok used rest size

/-- The candidate fold of `get_faq_answer` builds exactly the accepted
questions, each followed by a line break. -/
theorem faq_fold_builds_accepted (tokens : String → Nat) (maxTok : Nat)
    (used : List String) :
    ∀ (topQuestions : List String) (s0 : Nat) (a : String),
      (topQuestions.foldl
        (fun (acc : String × Nat) question =>
          let questionSize := tokens question
          if (!(used.contains question))
              && (acc.2 + questionSize < maxTok) then
            (acc.1 ++ question ++ "\n", acc.2 + questionSize)
          else acc)
        (a, s0)).1 =
      (faqAccepted tokens maxTok used topQuestions s0).foldl
        (fun s q => s ++ q ++ "\n") a := by
  intro topQuestions
  induction topQuestions with
  | nil => intro s0 a; rfl
  | cons q rest ih =>
    intro s0 a
    simp only [List.foldl_cons, faqAccepted]
    cases hc : (!(used.contains q)) && (decide (s0 + tokens q < maxTok)) with
    | true => simpa using ih (s0 + tokens q) (a ++ q ++ "\n")
    | false => simpa using ih s0 a

/-- Every accepted candidate is absent from the used list. -/
theorem faqAccepted_not_used (tokens : String → Nat) (maxTok : Nat)
    (used : List String) :
    ∀ (topQuestions : List String) (s0 : Nat) (q : String),
      q ∈ faqAccepted tokens maxTok used topQuestions s0 →
      used.contains q = false := by
  intro topQuestions
  induction topQuestions with
  | nil => intro s0 q hq; simp [faqAccepted] at hq
  | cons p rest ih =>
    intro s0 q hq
    rw [faqAccepted] at hq
    cases hc : (!(used.contains p)) && (decide (s0 + tokens p < maxTok)) with
    | true =>
      rw [hc] at hq
      simp only [if_true] at hq
      rcases List.mem_cons.mp hq with h | h
      · rw [h]
        have h1 : (!(used.contains p)) = true := ((Bool.and_eq_true _ _).mp hc).1
        simpa using h1
      · exact ih (s0 + tokens p) q h
    | false =>
      rw [hc] at hq
      simp only [Bool.false_eq_true, if_false] at hq
      exact ih s0 q hq

/-- The matching tail never removes entries from the used list, records at
most one new question, and returns that question\'s canned answer when it
records one. -/
theorem faqMatchResponse_spec (faq : List (String × String))
    (topQuestions : List String) (response : String) (used : List String) :
    (faqMatchResponse faq topQuestions response used).2 = used ∨
    ∃ q, (faqMatchResponse faq topQuestions response used).2 = used ++ [q] ∧
      (faqMatchResponse faq topQuestions response used).1 =
        ((faq.lookup q).getD "") := by
  unfold faqMatchResponse
  cases hlook : faq.lookup response with
  | some answer =>
    refine Or.inr ⟨response, rfl, ?_⟩
    rw [hlook]
    rfl
  | none =>
    cases hfind : topQuestions.find? (fun question => strContains response question) with
    | some question => exact Or.inr ⟨question, rfl, rfl⟩
    | none => exact Or.inl rfl

/-- Environment for the C8 counterexample: the ranking service returns the
single FAQ question `"q"` and the completion service names `"q"` as the
matching question. -/
def envC8 : Env :=
  { harmful := fun _ => false
    completion := fun _ => "q"
    numTokens := fun _ => 0
    nsxDocs := fun _ => []
    senseAnswer := fun _ => ""
    faqTop := fun _ => some ["q"]
    history := none
    indexDomain := none }

/-- Configuration for the C8 counterexample: one FAQ entry
`"q" ↦ "resposta"`. -/
def cfgC8 : Config :=
  { maxNumReasoning := 6
    maxTokensPrompt := 4000
    maxTokensChatHistory := 800
    maxTokensFaqPrompt := 100
    chatPromptT := ""
    faqPromptT := ""
    summaryPromptT := ""
    forcedFinishT := ""
    sent := ⟨"NAO_ENCONTRADO", "ESGOTADO"⟩
    faq := some [("q", "resposta")]
    availableModels := []
    disableFaq := false
    disableMemory := true
    useNsxSense := false
    returnDebug := false
    devMode := false }

/--
C8 counterexample: within one turn, a first FAQ lookup returns the canned
answer of question `"q"` and records it in the used list, yet a second
lookup with that very used list returns the same question\'s answer again
(and appends `"q"` a second time): the used-question exclusion applies only
to the candidate set put into the selection prompt, not to the matching of
the model\'s response, so the same FAQ answer is returned twice in one
turn.
-/
theorem C8_counterexample :
    (get_faq_answer envC8 cfgC8 "pergunta" []).1 = "resposta" ∧
    (get_faq_answer envC8 cfgC8 "pergunta" []).2.1 = ["q"] ∧
    (get_faq_answer envC8 cfgC8 "pergunta" ["q"]).1 = "resposta" ∧
    (get_faq_answer envC8 cfgC8 "pergunta" ["q"]).2.1 = ["q", "q"] := by
  refine ⟨?_, ?_, ?_, ?_⟩ <;> rfl

/--
C8 amended: within a single turn, every FAQ question whose answer is
returned is recorded in the per-turn used-FAQ list, and questions already
in that list are excluded from the candidate set included in the selection
prompt; the exclusion does not extend to the matching of the completion
response itself (exact or substring), so a response naming an already-used
question returns its canned answer again.  Formally: (1) the used list
either stays unchanged or grows by exactly the matched question, whose
canned answer is the returned text; (2) the candidate block of the
selection prompt is built exactly from the `faqAccepted` filter; (3) no
accepted candidate is in the used list.
-/
theorem C8_faq_used_exclusion (env : Env) (cfg : Config) (query : String)
    (used : List String) (faq : List (String × String))
    (hfaq : cfg.faq = some faq) :
    ((get_faq_answer env cfg query used).2.1 = used ∨
      ∃ q, (get_faq_answer env cfg query used).2.1 = used ++ [q] ∧
        (get_faq_answer env cfg query used).1 = ((faq.lookup q).getD "")) ∧
    (∀ (topQuestions : List String) (s0 : Nat),
      (topQuestions.foldl
        (fun (acc : String × Nat) question =>
          let questionSize := env.numTokens question
          if (!(used.contains question))
              && (acc.2 + questionSize < cfg.maxTokensFaqPrompt) then
            (acc.1 ++ question ++ "\n", acc.2 + questionSize)
          else acc)
        ("", s0)).1 =
      (faqAccepted env.numTokens cfg.maxTokensFaqPrompt used topQuestions s0).foldl
        (fun s q => s ++ q ++ "\n") "") ∧
    (∀ (topQuestions : List String) (s0 : Nat) (q : String),
      q ∈ faqAccepted env.numTokens cfg.maxTokensFaqPrompt used topQuestions s0 →
      used.contains q = false) := by
  refine ⟨?_, ?_, ?_⟩
  · unfold get_faq_answer
    rw [hfaq]
    cases htop : env.faqTop query with
    | none => exact Or.inl rfl
    | some topQuestions => exact faqMatchResponse_spec faq topQuestions _ used
  · intro topQuestions s0
    exact faq_fold_builds_accepted env.numTokens cfg.maxTokensFaqPrompt
      used topQuestions s0 ""
  · exact faqAccepted_not_used env.numTokens cfg.maxTokensFaqPrompt used

/-- Concrete witness for the amended C8: on the counterexample environment,
the first lookup grows the used list by the matched question `"q"` with its
canned answer. -/
theorem C8_faq_used_exclusion_witness :
    (get_faq_answer envC8 cfgC8 "pergunta" []).2.1 = [] ∨
    ∃ q, (get_faq_answer envC8 cfgC8 "pergunta" []).2.1 = [] ++ [q] ∧
      (get_faq_answer envC8 cfgC8 "pergunta" []).1 =
        (([("q", "resposta")].lookup q).getD "") :=
  (C8_faq_used_exclusion envC8 cfgC8 "pergunta" [] [("q", "resposta")] rfl).1

/-!
## Claim C1 — harmful inbound message short-circuit
-/

/--
C1: whenever the content-safety gate flags the inbound user message as
harmful (and the dev-mode shortcut is not taken, which is the only path on
which the gate is not consulted), `get_response` returns the fixed refusal
text and the only service call of the turn is that single moderation call —
in particular no call to the completion service or to any search service
occurs.
-/
theorem C1_harmful_inbound_refusal (env : Env) (cfg : Config) (msg : String)
    (hdev : (pyStartsWith msg "#" && cfg.devMode) = false)
    (hharm : env.harmful msg = true) :
    (get_response env cfg msg).text = some refusalText ∧
    (get_response env cfg msg).calls = [Call.moderation msg] ∧
    ((get_response env cfg msg).calls.all
      (fun c => !(c.isCompletionOrSearch))) = true := by
  unfold get_response
  rw [hdev, hharm]
  refine ⟨rfl, rfl, ?_⟩
  rfl

/-- Environment for the C1 witness: moderation flags everything. -/
def envC1 : Env :=
  { harmful := fun _ => true
    completion := fun _ => ""
    numTokens := fun _ => 0
    nsxDocs := fun _ => []
    senseAnswer := fun _ => ""
    faqTop := fun _ => none
    history := none
    indexDomain := none }

/-- Configuration for the C1 witness. -/
def cfgC1 : Config :=
  { maxNumReasoning := 6
    maxTokensPrompt := 4000
    maxTokensChatHistory := 800
    maxTokensFaqPrompt := 3700
    chatPromptT := ""
    faqPromptT := ""
    summaryPromptT := ""
    forcedFinishT := ""
    sent := ⟨"NAO_ENCONTRADO", "ESGOTADO"⟩
    faq := none
    availableModels := []
    disableFaq := true
    disableMemory := false
    useNsxSense := false
    returnDebug := false
    devMode := false }

/-- Concrete witness for C1: a flagged message yields the refusal text and
a call trace containing only the moderation call. -/
theorem C1_harmful_inbound_refusal_witness :
    (get_response envC1 cfgC1 "mensagem ofensiva").text = some refusalText ∧
    (get_response envC1 cfgC1 "mensagem ofensiva").calls =
      [Call.moderation "mensagem ofensiva"] ∧
    ((get_response envC1 cfgC1 "mensagem ofensiva").calls.all
      (fun c => !(c.isCompletionOrSearch))) = true :=
  C1_harmful_inbound_refusal envC1 cfgC1 "mensagem ofensiva" rfl rfl

/-!
## Claim C3 — strict token-budget boundaries
-/

/--
C3: in the reasoning loop, when the token count of the accumulated prompt
plus the current iteration block is exactly the configured ceiling
(`settings.max_tokens_prompt`), the loop does not terminate early and the
block is appended; when it exceeds the ceiling by at least one token, the
loop exits the iteration loop without a Finish (the `budget` exit, which
`get_response` turns into the forced finish); and the pre-flight "message
too long" guard uses the same strict inequality on the initial prompt
(strictly greater trips it, exact equality does not).
-/
theorem C3_token_budget_boundary (env : Env) (cfg : Config) (i : Nat)
    (st : LoopState) (msg : String)
    (hnf : pyStartsWith (parseIteration env i st.prompt).actionType
      "Finalizar" = false)
    (hdev : (pyStartsWith msg "#" && cfg.devMode) = false)
    (hharm : env.harmful msg = false) :
    (env.numTokens (st.prompt ++ iterBlock (parseIteration env i st.prompt) i
        (get_observation env cfg (parseIteration env i st.prompt).actionInput
          st.usedFaq ((cfg.maxNumReasoning : Int) - i - 1)).text) =
        cfg.maxTokensPrompt →
      (loopStep env cfg i st).2 = none ∧
      (loopStep env cfg i st).1.prompt =
        st.prompt ++ iterBlock (parseIteration env i st.prompt) i
          (get_observation env cfg (parseIteration env i st.prompt).actionInput
            st.usedFaq ((cfg.maxNumReasoning : Int) - i - 1)).text) ∧
    (env.numTokens (st.prompt ++ iterBlock (parseIteration env i st.prompt) i
        (get_observation env cfg (parseIteration env i st.prompt).actionInput
          st.usedFaq ((cfg.maxNumReasoning : Int) - i - 1)).text) >
        cfg.maxTokensPrompt →
      (loopStep env cfg i st).2 = some .budget ∧
      (loopStep env cfg i st).1.prompt = st.prompt) ∧
    (env.numTokens (initialPrompt env cfg msg) > cfg.maxTokensPrompt →
      (get_response env cfg msg).tooLong = true ∧
      (get_response env cfg msg).text = some tooLongText) ∧
    (env.numTokens (initialPrompt env cfg msg) = cfg.maxTokensPrompt →
      (get_response env cfg msg).tooLong = false) := by
  refine ⟨?_, ?_, ?_, ?_⟩
  · intro heq
    unfold loopStep
    simp only []
    rw [hnf]
    simp only [Bool.false_eq_true, if_false]
    rw [if_neg (by omega)]
    exact ⟨rfl, rfl⟩
  · intro hgt
    unfold loopStep
    simp only []
    rw [hnf]
    simp only [Bool.false_eq_true, if_false]
    rw [if_pos hgt]
    exact ⟨rfl, rfl⟩
  · intro hgt
    unfold get_response
    simp only []
    rw [hdev, hharm]
    simp only [Bool.false_eq_true, if_false]
    rw [if_pos hgt]
    exact ⟨rfl, rfl⟩
  · intro heq
    unfold get_response
    simp only []
    rw [hdev, hharm]
    simp only [Bool.false_eq_true, if_false]
    rw [if_neg (by omega)]
    split
    · rfl
    · rfl

/-- Environment for the C3 witness whose token counter always answers
exactly the ceiling. -/
def envC3exact : Env :=
  { harmful := fun _ => false
    completion := fun _ => "Buscar"
    numTokens := fun _ => 42
    nsxDocs := fun _ => []
    senseAnswer := fun _ => ""
    faqTop := fun _ => none
    history := none
    indexDomain := none }

/-- Environment for the C3 witness whose token counter always answers one
above the ceiling. -/
def envC3over : Env :=
  { envC3exact with numTokens := fun _ => 43 }

/-- Configuration for the C3 witness: the token ceiling is 42. -/
def cfgC3 : Config :=
  { maxNumReasoning := 6
    maxTokensPrompt := 42
    maxTokensChatHistory := 800
    maxTokensFaqPrompt := 3700
    chatPromptT := ""
    faqPromptT := ""
    summaryPromptT := ""
    forcedFinishT := ""
    sent := ⟨"NAO_ENCONTRADO", "ESGOTADO"⟩
    faq := none
    availableModels := []
    disableFaq := true
    disableMemory := true
    useNsxSense := false
    returnDebug := false
    devMode := false }

/-- Concrete witness for C3: with every token count exactly at the ceiling
the step continues and appends the block (and the pre-flight guard does not
trip), while with every count one over the ceiling the step exits on the
budget check and the pre-flight guard trips. -/
theorem C3_token_budget_boundary_witness :
    ((loopStep envC3exact cfgC3 1 ⟨"p", [], [], [], ""⟩).2 = none ∧
      (loopStep envC3exact cfgC3 1 ⟨"p", [], [], [], ""⟩).1.prompt =
        "p" ++ iterBlock (parseIteration envC3exact 1 "p") 1
          (get_observation envC3exact cfgC3
            (parseIteration envC3exact 1 "p").actionInput []
            ((6 : Int) - 1 - 1)).text) ∧
    (get_response envC3exact cfgC3 "oi").tooLong = false ∧
    ((loopStep envC3over cfgC3 1 ⟨"p", [], [], [], ""⟩).2 = some .budget ∧
      (loopStep envC3over cfgC3 1 ⟨"p", [], [], [], ""⟩).1.prompt = "p") ∧
    (get_response envC3over cfgC3 "oi").tooLong = true := by
  have hexact := C3_token_budget_boundary envC3exact cfgC3 1
    ⟨"p", [], [], [], ""⟩ "oi" rfl rfl rfl
  have hover := C3_token_budget_boundary envC3over cfgC3 1
    ⟨"p", [], [], [], ""⟩ "oi" rfl rfl rfl
  refine ⟨hexact.1 rfl, hexact.2.2.2 rfl, hover.2.1 (by decide), (hover.2.2.1 (by decide)).1⟩

/-!
## Claim C4 — Finish action returns the action text verbatim
-/

/--
C4: whenever the parsed action type of a reached iteration begins with the
finish keyword `"Finalizar"`, the loop terminates at that iteration with
that iteration\'s action text — which `parseIteration` has already stripped
of surrounding whitespace, the only transformation applied — as the answer;
and under the preconditions that the outbound moderation does not flag the
answer and the debug-return option is off, `get_response` returns exactly
that answer.
-/
theorem C4_finish_action_verbatim (env : Env) (cfg : Config) (msg a : String)
    (i fuel : Nat) (st : LoopState) :
    (pyStartsWith (parseIteration env i st.prompt).actionType "Finalizar" = true →
      (loopGo env cfg (fuel + 1) i st).2 =
        .finish (parseIteration env i st.prompt).actionInput) ∧
    ((pyStartsWith msg "#" && cfg.devMode) = false →
      env.harmful msg = false →
      ¬(env.numTokens (initialPrompt env cfg msg) > cfg.maxTokensPrompt) →
      (loopGo env cfg cfg.maxNumReasoning 1
        ⟨initialPrompt env cfg msg, [], [], [], ""⟩).2 = .finish a →
      env.harmful a = false →
      cfg.returnDebug = false →
      (get_response env cfg msg).text = some a) := by
  constructor
  · intro hfin
    have hstep : (loopStep env cfg i st).2 =
        some (.finish (parseIteration env i st.prompt).actionInput) := by
      unfold loopStep
      simp only []
      rw [hfin]
      simp only [if_true]
    rcases hls : loopStep env cfg i st with ⟨st1, oe⟩
    rw [hls] at hstep
    simp only [] at hstep
    rw [loopGo, hls, hstep]
  · intro hdev hharm hpre hrun hmoda hdbg
    unfold get_response
    simp only []
    rw [hdev, hharm]
    simp only [Bool.false_eq_true, if_false]
    rw [if_neg hpre, hrun]
    simp only []
    rw [hmoda]
    simp only [Bool.false_eq_true, if_false, hdbg]
    rfl

/-- Environment for the C4 witness: the completion service always emits a
well-formed iteration-1 Finish action with answer text `"Olá!"`. -/
def envC4 : Env :=
  { harmful := fun _ => false
    completion := fun _ => "pensei\nAção 1: Finalizar\nTexto da ação 1: Olá!"
    numTokens := fun _ => 0
    nsxDocs := fun _ => []
    senseAnswer := fun _ => ""
    faqTop := fun _ => none
    history := none
    indexDomain := none }

/-- Configuration for the C4 witness. -/
def cfgC4 : Config :=
  { maxNumReasoning := 6
    maxTokensPrompt := 4000
    maxTokensChatHistory := 800
    maxTokensFaqPrompt := 3700
    chatPromptT := ""
    faqPromptT := ""
    summaryPromptT := ""
    forcedFinishT := ""
    sent := ⟨"NAO_ENCONTRADO", "ESGOTADO"⟩
    faq := none
    availableModels := []
    disableFaq := true
    disableMemory := true
    useNsxSense := false
    returnDebug := false
    devMode := false }

/-- Concrete witness for C4: a Finish action at iteration 1 terminates the
loop with the stripped action text `"Olá!"`, which `get_response` returns
verbatim. -/
theorem C4_finish_action_verbatim_witness :
    (loopGo envC4 cfgC4 (5 + 1) 1 ⟨"p", [], [], [], ""⟩).2 = .finish "Olá!" ∧
    (get_response envC4 cfgC4 "oi").text = some "Olá!" := by
  constructor
  · exact (C4_finish_action_verbatim envC4 cfgC4 "oi" "Olá!" 1 5
      ⟨"p", [], [], [], ""⟩).1 rfl
  · exact (C4_finish_action_verbatim envC4 cfgC4 "oi" "Olá!" 1 0
      ⟨"", [], [], [], ""⟩).2 rfl rfl (by decide) rfl rfl rfl

/-!
## Claim C10 — `searches_left` arithmetic of the reasoning loop
-/

/-- With the FAQ disabled, sense mode off, and an empty ranked-search
result, the dispatched observation is exactly the sentinel chosen by
`searches_left`. -/
theorem get_observation_empty_nsx (env : Env) (cfg : Config) (query : String)
    (used : List String) (sl : Int)
    (hfaq : cfg.disableFaq = true) (hsense : cfg.useNsxSense = false)
    (hdocs : env.nsxDocs query = []) :
    get_observation env cfg query used sl =
      { text := if sl == 0 then cfg.sent.unanswerable_search
          else cfg.sent.answer_not_found
        tool := .NSX
        usedFaq := used
        calls := [Call.nsxSearch query] } := by
  unfold get_observation get_nsx_answer
  rw [hfaq, hsense, hdocs]
  simp

/--
C10 amended: the `searches_left` value passed to the tools at iteration `i`
is `max_num_reasoning - i - 1`; on the final iteration
(`i = max_num_reasoning`) it is `-1`, which is neither `> 0` nor `== 0`, so
a search returning zero results there yields the "more searching is
possible" sentinel (`answer_not_found`).  The "search budget exhausted"
sentinel is NOT unreachable, however: it is produced exactly when
`searches_left == 0`, which happens at iteration `max_num_reasoning - 1`
(see the accompanying counterexample).
-/
theorem C10_searches_left_semantics (env : Env) (cfg : Config) (i : Nat)
    (st : LoopState)
    (hnf : pyStartsWith (parseIteration env i st.prompt).actionType
      "Finalizar" = false)
    (hfaq : cfg.disableFaq = true) (hsense : cfg.useNsxSense = false)
    (hdocs : env.nsxDocs (parseIteration env i st.prompt).actionInput = []) :
    ∃ rec : IterRec,
      (loopStep env cfg i st).1.trace = st.trace ++ [rec] ∧
      rec.searchesLeft = some ((cfg.maxNumReasoning : Int) - i - 1) ∧
      rec.observation = some (if ((cfg.maxNumReasoning : Int) - i - 1) == 0
        then cfg.sent.unanswerable_search else cfg.sent.answer_not_found) ∧
      (i = cfg.maxNumReasoning →
        rec.observation = some cfg.sent.answer_not_found) := by
  unfold loopStep
  simp only []
  rw [hnf]
  simp only [Bool.false_eq_true, if_false]
  rw [get_observation_empty_nsx env cfg _ _ _ hfaq hsense hdocs]
  refine ⟨⟨i, (parseIteration env i st.prompt).thought,
    (parseIteration env i st.prompt).actionType,
    (parseIteration env i st.prompt).actionInput,
    some (if ((cfg.maxNumReasoning : Int) - i - 1) == 0
      then cfg.sent.unanswerable_search else cfg.sent.answer_not_found),
    some ((cfg.maxNumReasoning : Int) - i - 1), some .NSX⟩, ?_, rfl, rfl, ?_⟩
  · split
    · split
      · rfl
      · rfl
    · split
      · rfl
      · rfl
  · intro hi
    subst hi
    have hne : ((((cfg.maxNumReasoning : Int)) - cfg.maxNumReasoning - 1) == 0) =
        false := by
      simp only [beq_eq_false_iff_ne]
      omega
    rw [hne]
    simp

/-- Environment for the C10 counterexample: the completion service always
answers the bare query `"Buscar"` (never a Finish action) and the search
service always returns zero documents. -/
def envC10 : Env :=
  { harmful := fun _ => false
    completion := fun _ => "Buscar"
    numTokens := fun _ => 0
    nsxDocs := fun _ => []
    senseAnswer := fun _ => ""
    faqTop := fun _ => none
    history := none
    indexDomain := none }

/-- Configuration for the C10 counterexample, with
`max_num_reasoning = 6`. -/
def cfgC10 : Config :=
  { maxNumReasoning := 6
    maxTokensPrompt := 100
    maxTokensChatHistory := 800
    maxTokensFaqPrompt := 3700
    chatPromptT := ""
    faqPromptT := ""
    summaryPromptT := ""
    forcedFinishT := ""
    sent := ⟨"NOTFOUND", "ESGOTADO"⟩
    faq := none
    availableModels := []
    disableFaq := true
    disableMemory := true
    useNsxSense := false
    returnDebug := false
    devMode := false }

/--
C10 counterexample: in a single-query reasoning turn whose searches all
return zero documents, the "search budget exhausted" sentinel
(`unanswerable_search = "ESGOTADO"`) IS produced — at the iteration where
`searches_left = 0` (iteration `max_num_reasoning - 1 = 5`) — refuting the
claim that this sentinel is unreachable in the single-query reasoning loop.
-/
theorem C10_exhausted_sentinel_reachable_counterexample :
    ((get_response envC10 cfgC10 "oi").trace.any
      (fun r => r.searchesLeft == some (0 : Int)
        && r.observation == some "ESGOTADO")) = true := by
  rfl

/-- Concrete witness for the amended C10: on the final iteration
(`i = 6 = max_num_reasoning`) the recorded `searches_left` is `-1` and the
empty search yields the `answer_not_found` sentinel. -/
theorem C10_searches_left_semantics_witness :
    ((loopStep envC10 cfgC10 6 ⟨"p", [], [], [], ""⟩).1.trace.map
      (fun r => (r.searchesLeft, r.observation))) =
      [(some (-1 : Int), some "NOTFOUND")] := by
  obtain ⟨rec, h1, h2, h3, h4⟩ :=
    C10_searches_left_semantics envC10 cfgC10 6 ⟨"p", [], [], [], ""⟩ rfl rfl rfl rfl
  rw [h1]
  simp only [List.nil_append, List.map_cons, List.map_nil]
  rw [h2, h4 rfl]
  rfl

/-!
## Claim C9 — parallel multi-query result assembly
-/

/-- Replacing the value of key `k` inside the list leaves other keys
unchanged. -/
theorem lookup_map_replace (d : List (String × String)) (k v k' : String)
    (hne : k' ≠ k) :
    (d.map (fun p => if p.1 == k then (k, v) else p)).lookup k' =
      d.lookup k' := by
  induction d with
  | nil => rfl
  | cons a rest ih =>
    simp only [List.map_cons]
    by_cases ha : (a.1 == k) = true
    · have hak : a.1 = k := by simpa using ha
      have hk' : (k' == k) = false := by
        simp only [beq_eq_false_iff_ne]; exact hne
      have hk'a : (k' == a.1) = false := by rw [hak]; exact hk'
      rw [if_pos ha]
      simp only [List.lookup, hk', hk'a]
      simpa using ih
    · rw [if_neg ha]
      cases hk'a : (k' == a.1) with
      | true => simp [List.lookup, hk'a]
      | false =>
        simp only [List.lookup, hk'a]
        simpa using ih

/-- Replacing the value of a present key `k` makes its lookup return the
new value. -/
theorem lookup_map_replace_self (d : List (String × String)) (k v : String)
    (hany : d.any (fun p => p.1 == k) = true) :
    (d.map (fun p => if p.1 == k then (k, v) else p)).lookup k = some v := by
  induction d with
  | nil => simp at hany
  | cons a rest ih =>
    simp only [List.map_cons]
    by_cases ha : (a.1 == k) = true
    · rw [if_pos ha]
      simp [List.lookup]
    · rw [if_neg ha]
      simp only [Bool.not_eq_true] at ha
      have hk : (k == a.1) = false := by
        simp only [beq_eq_false_iff_ne] at ha ⊢
        exact fun hkk => ha hkk.symm
      have hrest : rest.any (fun p => p.1 == k) = true := by
        simp only [List.any_cons, Bool.or_eq_true, ha] at hany
        simpa using hany
      simp only [List.lookup, hk]
      simpa using ih hrest

/-- A key absent from every pair has no lookup value. -/
theorem lookup_eq_none_of_not_mem (d : List (String × String)) (k : String)
    (hnone : d.any (fun p => p.1 == k) = false) :
    d.lookup k = none := by
  induction d with
  | nil => rfl
  | cons a rest ih =>
    simp only [List.any_cons, Bool.or_eq_false_iff] at hnone
    have hk : (k == a.1) = false := by
      have := hnone.1
      simp only [beq_eq_false_iff_ne] at this ⊢
      exact fun hkk => this hkk.symm
    simp [List.lookup, hk, ih hnone.2]

/-- Looking up the key just assigned by `dictSet` yields the assigned
value. -/
theorem lookup_dictSet_self (d : List (String × String)) (k v : String) :
    (dictSet d k v).lookup k = some v := by
  unfold dictSet
  by_cases h : d.any (fun p => p.1 == k) = true
  · rw [if_pos h]
    exact lookup_map_replace_self d k v h
  · simp only [Bool.not_eq_true] at h
    rw [h]
    simp only [Bool.false_eq_true, if_false]
    have hnone := lookup_eq_none_of_not_mem d k h
    induction d with
    | nil => simp [List.lookup]
    | cons a rest ih =>
      simp only [List.any_cons, Bool.or_eq_false_iff] at h
      have hk : (k == a.1) = false := by
        have := h.1
        simp only [beq_eq_false_iff_ne] at this ⊢
        exact fun hkk => this hkk.symm
      simp only [List.lookup, hk] at hnone
      simp [List.cons_append, List.lookup, hk, ih h.2 hnone]

/-- `dictSet` leaves every other key unchanged. -/
theorem lookup_dictSet_ne (d : List (String × String)) (k v k' : String)
    (hne : k' ≠ k) : (dictSet d k v).lookup k' = d.lookup k' := by
  unfold dictSet
  by_cases h : d.any (fun p => p.1 == k) = true
  · rw [if_pos h]
    exact lookup_map_replace d k v k' hne
  · simp only [Bool.not_eq_true] at h
    rw [h]
    simp only [Bool.false_eq_true, if_false]
    induction d with
    | nil =>
      have hk' : (k' == k) = false := by
        simp only [beq_eq_false_iff_ne]; exact hne
      simp [List.lookup, hk']
    | cons a rest ih =>
      simp only [List.any_cons, Bool.or_eq_false_iff] at h
      cases hk'a : (k' == a.1) with
      | true => simp [List.cons_append, List.lookup, hk'a]
      | false => simp [List.cons_append, List.lookup, hk'a, ih h.2]

/-- The value stored in row `i` of the result array under key `name`. -/
def cellVal (R : List (List (String × String))) (i : Nat) (name : String) :
    Option String :=
  (R.get? i).bind (fun d => d.lookup name)

theorem setCell_length (R : List (List (String × String))) (i : Nat)
    (name x : String) :
    (ChatHandlerFunctionCall.setCell R i name x).length = R.length :=
  modifyAt_length R i _

theorem cellVal_setCell_self (R : List (List (String × String))) (i : Nat)
    (name x : String) (hi : i < R.length) :
    cellVal (ChatHandlerFunctionCall.setCell R i name x) i name = some x := by
  unfold cellVal ChatHandlerFunctionCall.setCell
  rw [modifyAt_get_eq]
  cases hget : R.get? i with
  | none =>
    rw [List.get?_eq_get hi] at hget
    cases hget
  | some d => simp [lookup_dictSet_self]

theorem cellVal_setCell_ne (R : List (List (String × String))) (i j : Nat)
    (name name' x : String) (h : i ≠ j ∨ name' ≠ name) :
    cellVal (ChatHandlerFunctionCall.setCell R i name x) j name' =
      cellVal R j name' := by
  unfold cellVal ChatHandlerFunctionCall.setCell
  rcases h with h | h
  · rw [modifyAt_get_ne _ _ _ _ h]
  · by_cases hij : i = j
    · subst hij
      rw [modifyAt_get_eq]
      cases R.get? i with
      | none => rfl
      | some d => simp [lookup_dictSet_ne _ _ _ _ h]
    · rw [modifyAt_get_ne _ _ _ _ hij]

theorem assemble_length (measure : List (List (String × String)) → Nat)
    (remaining : Int) :
    ∀ (answers : List ChatHandlerFunctionCall.TaskAnswer)
      (R : List (List (String × String))),
      (ChatHandlerFunctionCall.assemble measure remaining R answers).length =
        R.length := by
  intro answers
  induction answers with
  | nil => intro R; rfl
  | cons a rest ih =>
    intro R
    unfold ChatHandlerFunctionCall.assemble
    simp only []
    split
    · rw [ih, setCell_length, setCell_length]
    · rw [ih, setCell_length]

/-- Once a cell holds the resolved value of its description (or the empty
string), the rest of the fan-in keeps it in that set. -/
theorem assemble_preserves (resolver : String → Int → String)
    (measure : List (List (String × String)) → Nat) (remaining : Int) :
    ∀ (answers : List ChatHandlerFunctionCall.TaskAnswer)
      (R : List (List (String × String))) (i : Nat) (name v : String),
      cellVal R i name = some v →
      (v = resolver name 1 ∨ v = "") →
      (∀ a ∈ answers, a.result = resolver a.name 1) →
      ∃ w, cellVal (ChatHandlerFunctionCall.assemble measure remaining R answers)
          i name = some w ∧ (w = resolver name 1 ∨ w = "") := by
  intro answers
  induction answers with
  | nil =>
    intro R i name v hv hg _
    exact ⟨v, hv, hg⟩
  | cons a rest ih =>
    intro R i name v hv hg ha
    have hi : i < R.length := by
      by_contra hge
      rw [not_lt] at hge
      unfold cellVal at hv
      rw [List.get?_eq_none.mpr hge] at hv
      cases hv
    unfold ChatHandlerFunctionCall.assemble
    simp only []
    by_cases hsame : a.i = i ∧ a.name = name
    · -- this step rewrites the very cell
      have h1 : cellVal (ChatHandlerFunctionCall.setCell R a.i a.name a.result)
          i name = some (resolver name 1) := by
        rw [hsame.1, hsame.2]
        rw [cellVal_setCell_self R i name _ hi,
          ← hsame.2, ha a (List.mem_cons_self a rest)]
      split
      · -- overflow: the cell is blanked
        have h2 : cellVal (ChatHandlerFunctionCall.setCell
            (ChatHandlerFunctionCall.setCell R a.i a.name a.result)
            a.i a.name "") i name = some "" := by
          rw [hsame.1, hsame.2]
          exact cellVal_setCell_self _ i name _
            (by rw [setCell_length]; exact hi)
        exact ih _ i name "" h2 (Or.inr rfl)
          (fun b hb => ha b (List.mem_cons_of_mem a hb))
      · exact ih _ i name (resolver name 1) h1 (Or.inl rfl)
          (fun b hb => ha b (List.mem_cons_of_mem a hb))
    · -- a different cell is written; ours is untouched
      have hne : a.i ≠ i ∨ name ≠ a.name := by
        by_cases h1 : a.i = i
        · refine Or.inr ?_
          intro h2
          exact hsame ⟨h1, h2.symm⟩
        · exact Or.inl h1
      have h1 : cellVal (ChatHandlerFunctionCall.setCell R a.i a.name a.result)
          i name = some v := by
        rw [cellVal_setCell_ne _ _ _ _ _ _ hne]
        exact hv
      split
      · have h2 : cellVal (ChatHandlerFunctionCall.setCell
            (ChatHandlerFunctionCall.setCell R a.i a.name a.result)
            a.i a.name "") i name = some v := by
          rw [cellVal_setCell_ne _ _ _ _ _ _ hne]
          exact h1
        exact ih _ i name v h2 hg
          (fun b hb => ha b (List.mem_cons_of_mem a hb))
      · exact ih _ i name v h1 hg
          (fun b hb => ha b (List.mem_cons_of_mem a hb))

/-- Every cell addressed by some answer of the fan-in ends up holding its
resolved value or the empty string. -/
theorem assemble_establishes (resolver : String → Int → String)
    (measure : List (List (String × String)) → Nat) (remaining : Int) :
    ∀ (answers : List ChatHandlerFunctionCall.TaskAnswer)
      (R : List (List (String × String))) (i : Nat) (name : String),
      i < R.length →
      (∀ a ∈ answers, a.result = resolver a.name 1) →
      (∃ a ∈ answers, a.i = i ∧ a.name = name) →
      ∃ w, cellVal (ChatHandlerFunctionCall.assemble measure remaining R answers)
          i name = some w ∧ (w = resolver name 1 ∨ w = "") := by
  intro answers
  induction answers with
  | nil =>
    intro R i name _ _ hmem
    simp at hmem
  | cons a rest ih =>
    intro R i name hi ha hmem
    by_cases hsame : a.i = i ∧ a.name = name
    · -- this very step establishes the cell; the rest preserves it
      have h1 : cellVal (ChatHandlerFunctionCall.setCell R a.i a.name a.result)
          i name = some (resolver name 1) := by
        rw [hsame.1, hsame.2]
        rw [cellVal_setCell_self R i name _ hi,
          ← hsame.2, ha a (List.mem_cons_self a rest)]
      unfold ChatHandlerFunctionCall.assemble
      simp only []
      split
      · have h2 : cellVal (ChatHandlerFunctionCall.setCell
            (ChatHandlerFunctionCall.setCell R a.i a.name a.result)
            a.i a.name "") i name = some "" := by
          rw [hsame.1, hsame.2]
          exact cellVal_setCell_self _ i name _
            (by rw [setCell_length]; exact hi)
        exact assemble_preserves resolver measure remaining rest _ i name ""
          h2 (Or.inr rfl) (fun b hb => ha b (List.mem_cons_of_mem a hb))
      · exact assemble_preserves resolver measure remaining rest _ i name
          (resolver name 1) h1 (Or.inl rfl)
          (fun b hb => ha b (List.mem_cons_of_mem a hb))
    · -- the matching answer is in the tail
      have hmem' : ∃ b ∈ rest, b.i = i ∧ b.name = name := by
        rcases hmem with ⟨b, hb, hbi⟩
        rcases List.mem_cons.mp hb with h | h
        · subst h
          exact absurd hbi hsame
        · exact ⟨b, h, hbi⟩
      unfold ChatHandlerFunctionCall.assemble
      simp only []
      split
      · exact ih _ i name
          (by rw [setCell_length, setCell_length]; exact hi)
          (fun b hb => ha b (List.mem_cons_of_mem a hb)) hmem'
      · exact ih _ i name (by rw [setCell_length]; exact hi)
          (fun b hb => ha b (List.mem_cons_of_mem a hb)) hmem'

/-- Membership of a task in the flattened list. -/
theorem mem_flattenFrom (name : String) :
    ∀ (infoList : List (List String)) (k i : Nat) (info : List String),
      infoList.get? i = some info → name ∈ info →
      ChatHandlerFunctionCall.Task.mk (k + i) name ∈
        ChatHandlerFunctionCall.flattenFrom k infoList := by
  intro infoList
  induction infoList with
  | nil => intro k i info h; cases h
  | cons info0 rest ih =>
    intro k i info hget hmem
    cases i with
    | zero =>
      simp only [List.get?, Option.some.injEq] at hget
      subst hget
      unfold ChatHandlerFunctionCall.flattenFrom
      refine List.mem_append_left _ ?_
      exact List.mem_map.mpr ⟨name, hmem, rfl⟩
    | succ j =>
      unfold ChatHandlerFunctionCall.flattenFrom
      refine List.mem_append_right _ ?_
      have := ih (k + 1) j info hget hmem
      have harith : k + 1 + j = k + (j + 1) := by omega
      rw [harith] at this
      exact this

/--
C9 (code bug): the parallel variant\'s worker passes eight positional
arguments (`value, index, used_faq, latency_dict, api_key, 1,
settings.num_docs_search, bm25_only`) to the six-parameter
`ChatHandler.get_observation` of this source tree, so every flattened
task\'s resolution raises `TypeError`; whenever at least one task is
flattened, `search_information_parallel` re-raises it while iterating the
pool\'s results, and no result array is ever assembled — the resolution
and shape-preserving assembly the claim describes (the clear intent of the
code, spelled out in the specification) are unreachable on this source.
-/
theorem C9_parallel_worker_type_error (resolver : String → Int → String)
    (measure : List (List (String × String)) → Nat) (remaining : Int)
    (infoList : List (List String))
    (h : ChatHandlerFunctionCall.flatten infoList ≠ []) :
    ChatHandlerFunctionCall.search_information_parallel resolver measure
      remaining infoList = .error .typeError := by
  unfold ChatHandlerFunctionCall.search_information_parallel
  simp only []
  cases hf : ChatHandlerFunctionCall.flatten infoList with
  | nil => exact absurd hf h
  | cons t rest =>
    have hw : ChatHandlerFunctionCall.worker resolver t = .error .typeError := by
      unfold ChatHandlerFunctionCall.worker
      rw [if_neg (by decide)]
    have hc : ChatHandlerFunctionCall.collectResults resolver (t :: rest) =
        .error .typeError := by
      unfold ChatHandlerFunctionCall.collectResults
      rw [hw]
    rw [hc]

/-- The resolver a matching arity would dispatch through, for the C9
witness. -/
def resolverC9 (q : String) (sl : Int) : String :=
  "resultado de " ++ q ++ toString sl

/-- Concrete witness for C9\'s failing input: a single information item
with its two descriptions (two flattened tasks) already makes
`search_information_parallel` raise `TypeError`. -/
theorem C9_parallel_worker_type_error_witness :
    ChatHandlerFunctionCall.search_information_parallel resolverC9
      (fun _ => 0) 100 [["d1a", "d1b"]] = .error .typeError :=
  C9_parallel_worker_type_error resolverC9 (fun _ => 0) 100 [["d1a", "d1b"]]
    (by decide)

end NSXChatbot
